import Mathlib

/-!
Verification of the BGP EVPN configuration generator
(`yaml_to_template_vars.py` and `generate_device_config.py`).

The Python modules operate on a YAML document loaded by `yaml.safe_load`.
We embed such documents as the inductive type `Yaml` below; mapping keys in
the data model are strings or integers, embedded as `YKey`.  Fallible Python
operations (subscripting, iteration, attribute-style calls) are embedded as
`Except String` computations whose error strings name the Python exception
they correspond to.  The embedding notes, where relevant, Python behaviours
that are deliberately outside the modelled fragment:
* cross-type numeric equality (`True == 1` in Python) is not modelled; in the
  exercised document positions values are ints and strings;
* hashability errors (`TypeError` when a list is used as a set element or
  dict key) are not modelled; set elements in the exercised flows are
  scalars (hostnames and VRF ids).
-/

inductive YKey where
  | s (v : String)
  | i (v : Int)
deriving DecidableEq, Repr

inductive Yaml where
  | null
  | bool (b : Bool)
  | int (n : Int)
  | str (v : String)
  | seq (xs : List Yaml)
  | map (kvs : List (YKey × Yaml))
deriving Repr

mutual

/-- Structural equality of embedded YAML values, mirroring Python `==` on the
values produced by `yaml.safe_load` (scalars, lists, dicts). -/
def Yaml.beq : Yaml → Yaml → Bool
  | .null, .null => true
  | .bool a, .bool b => a == b
  | .int a, .int b => a == b
  | .str a, .str b => a == b
  | .seq xs, .seq ys => yamlListBeq xs ys
  | .map xs, .map ys => yamlKvsBeq xs ys
  | _, _ => false

def yamlListBeq : List Yaml → List Yaml → Bool
  | [], [] => true
  | x :: xs, y :: ys => Yaml.beq x y && yamlListBeq xs ys
  | _, _ => false

def yamlKvsBeq : List (YKey × Yaml) → List (YKey × Yaml) → Bool
  | [], [] => true
  | (k, x) :: xs, (l, y) :: ys => k == l && Yaml.beq x y && yamlKvsBeq xs ys
  | _, _ => false

end

/-- Python equality between a dict key and a value (used for `x in somedict`,
which tests `x` against the keys). -/
def ykeyMatches (k : YKey) (x : Yaml) : Bool :=
  match k, x with
  | .s a, .str b => a == b
  | .i a, .int b => a == b
  | _, _ => false

/-- The YAML value denoted by a dict key (keys of `yaml.safe_load` dicts are
themselves YAML scalars). -/
def YKey.toYaml : YKey → Yaml
  | .s v => .str v
  | .i v => .int v

/-- First binding of a key in an association list.  Dicts produced by
`yaml.safe_load` have unique keys, so first-match lookup agrees with Python
dict lookup. -/
def yamlLookup : List (YKey × Yaml) → YKey → Option Yaml
  | [], _ => none
  | (k, v) :: rest, key => if k = key then some v else yamlLookup rest key

/-- Python subscripting `container[key]`: dict lookup (`KeyError` when the key
is absent), list indexing for integer keys (with negative indices), and
`TypeError` otherwise. -/
def pyGetItem (v : Yaml) (k : YKey) : Except String Yaml :=
  match v with
  | .map kvs =>
      match yamlLookup kvs k with
      | some w => .ok w
      | none => .error ("KeyError: " ++ (match k with | .s a => a | .i _ => "int key"))
  | .seq xs =>
      match k with
      | .i n =>
          if h : 0 ≤ n ∧ n.toNat < xs.length then .ok (xs.get ⟨n.toNat, h.2⟩)
          else if h2 : 0 ≤ n + Int.ofNat xs.length ∧ (n + Int.ofNat xs.length).toNat < xs.length then
            .ok (xs.get ⟨(n + Int.ofNat xs.length).toNat, h2.2⟩)
          else .error "IndexError: list index out of range"
      | .s _ => .error "TypeError: list indices must be integers"
  | _ => .error "TypeError: object is not subscriptable"

/-- Python `somedict.get(key, default)`; an `AttributeError` when the receiver
is not a dict. -/
def pyDictGet (v : Yaml) (k : YKey) (default : Yaml) : Except String Yaml :=
  match v with
  | .map kvs =>
      match yamlLookup kvs k with
      | some w => .ok w
      | none => .ok default
  | _ => .error "AttributeError: no attribute get"

/-- Python iteration `for x in v`: the elements of a list, the keys of a dict,
the one-character strings of a string; `TypeError` otherwise. -/
def pyIterate (v : Yaml) : Except String (List Yaml) :=
  match v with
  | .seq xs => .ok xs
  | .map kvs => .ok (kvs.map (fun kv => kv.1.toYaml))
  | .str s => .ok (s.data.map (fun c => .str (String.mk [c])))
  | _ => .error "TypeError: object is not iterable"

/-- Containment of one character sequence in another (Python `in` on two
strings tests substring containment). -/
def charsContain : List Char → List Char → Bool
  | _, [] => true
  | hay, n =>
      match hay with
      | [] => n.isEmpty
      | h :: t => n.isPrefixOf (h :: t) || charsContain t n

/-- Python membership `x in container`: list membership by equality, dict key
membership, substring test for strings; `TypeError` otherwise. -/
def pyIn (x : Yaml) (container : Yaml) : Except String Bool :=
  match container with
  | .seq xs => .ok (xs.any (fun y => Yaml.beq y x))
  | .map kvs => .ok (kvs.any (fun kv => ykeyMatches kv.1 x))
  | .str s =>
      match x with
      | .str t => .ok (charsContain s.data t.data)
      | _ => .error "TypeError: in <string> requires string"
  | _ => .error "TypeError: argument of type is not iterable"

/-- One insertion step of building a Python set from a list: a value equal to
an element already collected is not added again. -/
def pySetInsert (acc : List Yaml) (x : Yaml) : List Yaml :=
  if acc.any (fun y => Yaml.beq y x) then acc else acc ++ [x]

/-- The distinct elements of a list, in first-occurrence order: the contents
of the Python set built from the list (`set(xs)`); only cardinality and
membership of Python sets are relied upon, never iteration order. -/
def pySetOfList (xs : List Yaml) : List Yaml :=
  xs.foldl pySetInsert []

/-- Mapping-key traversal of a dotted path, one component at a time;
the embedding of `BGPEVPNDataModelConverter._check_field_exists`, which walks
`isinstance(current, dict) and part in current`. -/
def walkPath : Yaml → List String → Bool
  | _, [] => true
  | .map kvs, p :: ps =>
      match yamlLookup kvs (.s p) with
      | some v => walkPath v ps
      | none => false
  | _, _ :: _ => false

def check_field_exists (d : Yaml) (fieldPath : String) : Bool :=
  walkPath d (fieldPath.splitOn ".")

/-- Value at the end of a mapping-key path, when every step goes through a
dict that has the key. -/
def pathGet : Yaml → List String → Option Yaml
  | v, [] => some v
  | .map kvs, p :: ps =>
      match yamlLookup kvs (.s p) with
      | some v => pathGet v ps
      | none => none
  | _, _ :: _ => none

/-- Chained subscripting `d[p1][p2]...` as done throughout the converter. -/
def pyPath (d : Yaml) : List String → Except String Yaml
  | [] => .ok d
  | p :: ps => do
      let v ← pyGetItem d (.s p)
      pyPath v ps

/-- Whether a string starts with the given characters; the embedding of
Python `str.startswith` (the built-in String.startsWith does not reduce in
the kernel, so the character-list form is used). -/
def strStarts (s pre : String) : Bool :=
  pre.data.isPrefixOf s.data

/-! ## The Mapper: BGPEVPNDataModelConverter.convert_to_template_vars -/

/-- Reshaping of one VLAN record inside an overlay network
(`yaml_to_template_vars.py` lines 86-92): renames `ip_address` to `ipaddr`,
`mac_address` to `mac`, `bum_address` to `bum_addr`. -/
def vlanTransform (vc : Yaml) : Except String Yaml := do
  let n ← pyGetItem vc (.s "name")
  let ip ← pyGetItem vc (.s "ip_address")
  let mac ← pyGetItem vc (.s "mac_address")
  let dh ← pyGetItem vc (.s "dhcp_helper")
  let bum ← pyGetItem vc (.s "bum_address")
  .ok (.map [(.s "name", n), (.s "ipaddr", ip), (.s "mac", mac),
             (.s "dhcp_helper", dh), (.s "bum_addr", bum)])

/-- Reshaping of one overlay-network record (lines 81-93). -/
def overlayTransform (o : Yaml) : Except String Yaml := do
  let vrf ← pyGetItem o (.s "vrf")
  let vlansRaw ← pyGetItem o (.s "vlans")
  let vlansKvs ← (match vlansRaw with
      | .map kvs => Except.ok kvs
      | _ => Except.error "AttributeError: no attribute items")
  let vlans ← vlansKvs.mapM (fun kv => do
      let v ← vlanTransform kv.2
      Except.ok (kv.1, v))
  .ok (.map [(.s "vrf", vrf), (.s "vlans", .map vlans)])

/-- Reshaping of one interface record of an L3 external connection
(lines 105-110): renames `ip_address` to `ipaddr`, `neighbor_ip` to
`neighbour`. -/
def l3IntfTransform (ic : Yaml) : Except String Yaml := do
  let n ← pyGetItem ic (.s "name")
  let vlan ← pyGetItem ic (.s "vlan")
  let ip ← pyGetItem ic (.s "ip_address")
  let nb ← pyGetItem ic (.s "neighbor_ip")
  .ok (.map [(.s "name", n), (.s "vlan", vlan), (.s "ipaddr", ip), (.s "neighbour", nb)])

/-- Reshaping of one L3 external connection (lines 98-111): renames `device`
to `node` and `neighbor_asn` to `neighbour_asn`. -/
def l3Transform (c : Yaml) : Except String Yaml := do
  let vrf ← pyGetItem c (.s "vrf")
  let node ← pyGetItem c (.s "device")
  let asn ← pyGetItem c (.s "neighbor_asn")
  let intfRaw ← pyGetItem c (.s "interfaces")
  let intfKvs ← (match intfRaw with
      | .map kvs => Except.ok kvs
      | _ => Except.error "AttributeError: no attribute items")
  let intfs ← intfKvs.mapM (fun kv => do
      let v ← l3IntfTransform kv.2
      Except.ok (kv.1, v))
  .ok (.map [(.s "vrf", vrf), (.s "node", node), (.s "neighbour_asn", asn),
             (.s "interfaces", .map intfs)])

/-- Reshaping of one NAC server record (lines 118-122): `server_ip` to
`nac_ip`, `shared_key` to `nac_key`. -/
def nacTransform (sv : Yaml) : Except String Yaml := do
  let vrf ← pyGetItem sv (.s "vrf")
  let ip ← pyGetItem sv (.s "server_ip")
  let key ← pyGetItem sv (.s "shared_key")
  .ok (.map [(.s "vrf", vrf), (.s "nac_ip", ip), (.s "nac_key", key)])

/-- Reshaping of one IPSec tunnel record (lines 129-135). -/
def tunnelTransform (t : Yaml) : Except String Yaml := do
  let tip ← pyGetItem t (.s "tunnel_ip")
  let pip ← pyGetItem t (.s "peer_ip")
  let dst ← pyGetItem t (.s "tunnel_destination")
  let mode ← pyGetItem t (.s "tunnel_mode")
  let asn ← pyGetItem t (.s "peer_bgp_asn")
  .ok (.map [(.s "tun_ip", tip), (.s "peer_ip", pip), (.s "tun_dst", dst),
             (.s "tun_mode", mode), (.s "peer_bgp_asn", asn)])

/-- The device-independent part of `convert_to_template_vars` (lines 42-135),
building the template-variable mapping in assignment order.  Each subscript
chain of the source is one `pyPath`; the first failing access aborts the
whole conversion, as an uncaught Python `KeyError`/`TypeError` would. -/
def convert_core (d : Yaml) : Except String (List (String × Yaml)) := do
  let fabricBgpAsn ← pyPath d ["fabric", "bgp_asn"]
  let fabricUnderlay ← pyPath d ["fabric", "underlay"]
  let fabricIpsecUnderlay ← pyPath d ["fabric", "ipsec_underlay"]
  let l2VniOffset ← pyPath d ["vni_offsets", "l2_vni_offset"]
  let l3VniOffset ← pyPath d ["vni_offsets", "l3_vni_offset"]
  let fabricRpAddr ← pyPath d ["multicast", "fabric_rp", "address"]
  let fabricRpScopes ← pyPath d ["multicast", "fabric_rp", "scopes"]
  let entRpAddr ← pyPath d ["multicast", "enterprise_rp", "address"]
  let entRpScopes ← pyPath d ["multicast", "enterprise_rp", "scopes"]
  let rolesSpine ← pyPath d ["devices", "roles", "spine"]
  let rolesRR ← pyPath d ["devices", "roles", "route_reflector"]
  let rolesClient ← pyPath d ["devices", "roles", "client"]
  let rolesBorder ← pyPath d ["devices", "roles", "border"]
  let loopUnderlay ← pyPath d ["devices", "loopbacks", "underlay"]
  let loopIpsec ← pyPath d ["devices", "loopbacks", "ipsec"]
  let loopMCluster ← pyPath d ["devices", "loopbacks", "multi_cluster"]
  let loopOverlay ← pyPath d ["devices", "loopbacks", "overlay_prefixes"]
  let loopName ← pyPath d ["devices", "loopbacks", "interface_names"]
  let defnVrf ← pyPath d ["vrfs", "definitions"]
  let defnVrfToNode ← pyPath d ["vrfs", "device_mappings"]
  let overlayRaw ← pyPath d ["overlay_networks"]
  let overlayItems ← pyIterate overlayRaw
  let defnOverlay ← overlayItems.mapM overlayTransform
  let l3Raw ← pyPath d ["l3_external", "connections"]
  let l3Items ← pyIterate l3Raw
  let defnL3out ← l3Items.mapM l3Transform
  let aggregates ← pyPath d ["l3_external", "aggregate_routes"]
  let nacRaw ← pyPath d ["network_access_control", "servers"]
  let nacItems ← pyIterate nacRaw
  let defnNacIot ← nacItems.mapM nacTransform
  let ipsecRaw ← pyPath d ["ipsec", "tunnels"]
  let ipsecKvs ← (match ipsecRaw with
      | .map kvs => Except.ok kvs
      | _ => Except.error "AttributeError: no attribute items")
  let defnIpsec ← ipsecKvs.mapM (fun kv => do
      let ts ← pyIterate kv.2
      let ts2 ← ts.mapM tunnelTransform
      Except.ok (kv.1, Yaml.seq ts2))
  .ok [("FABRIC_BGP_ASN", fabricBgpAsn),
       ("FABRIC_UNDERLAY", fabricUnderlay),
       ("FABRIC_IPSEC_UNDERLAY", fabricIpsecUnderlay),
       ("L2VNIOFFSET", l2VniOffset),
       ("L3VNIOFFSET", l3VniOffset),
       ("FABRIC_RP_ADDR", fabricRpAddr),
       ("FABRIC_RP_SCOPES", fabricRpScopes),
       ("ENTERPRISE_RP_ADDR", entRpAddr),
       ("ENTERPRISE_RP_SCOPES", entRpScopes),
       ("DEFN_NODE_ROLES", Yaml.map [(.s "SPINE", rolesSpine), (.s "RR", rolesRR),
                                     (.s "CLIENT", rolesClient), (.s "BORDER", rolesBorder)]),
       ("DEFN_LOOP_UNDERLAY", loopUnderlay),
       ("DEFN_LOOP_IPSEC", loopIpsec),
       ("DEFN_LOOP_MCLUSTER", loopMCluster),
       ("DEFN_LOOP_OVERLAY", loopOverlay),
       ("DEFN_LOOP_NAME", loopName),
       ("DEFN_VRF", defnVrf),
       ("DEFN_VRF_TO_NODE", defnVrfToNode),
       ("DEFN_OVERLAY", Yaml.seq defnOverlay),
       ("DEFN_L3OUT", Yaml.seq defnL3out),
       ("DEFN_L3OUT_AGGREGATES", aggregates),
       ("DEFN_NAC_IOT", Yaml.seq defnNacIot),
       ("DEFN_IPSEC", Yaml.map defnIpsec)]

/-- One iteration of the `vrf_list` loop (lines 145-147): look up the id of
the definition record, test membership in the device id list, and append the
name on a match. -/
def vrfListStep (deviceVrfIds : Yaml) (acc : List Yaml) (m : Yaml) :
    Except String (List Yaml) := do
  let idv ← pyGetItem m (.s "id")
  let b ← pyIn idv deviceVrfIds
  if b then do
    let namev ← pyGetItem m (.s "name")
    Except.ok (acc ++ [namev])
  else Except.ok acc

/-- The body of the device-specific tail, applied to the variable mapping
that already carries the `__device` marker. -/
def device_augment_tail (vars1 : List (String × Yaml)) (deviceHostname : String) :
    Except String (List (String × Yaml)) := do
  let dvtn ← (match List.lookup "DEFN_VRF_TO_NODE" vars1 with
      | some v => Except.ok v
      | none => Except.error "KeyError: DEFN_VRF_TO_NODE")
  let isMember ← pyIn (.str deviceHostname) dvtn
  if isMember then do
    let deviceVrfIds ← pyGetItem dvtn (.s deviceHostname)
    let defnVrf ← (match List.lookup "DEFN_VRF" vars1 with
        | some v => Except.ok v
        | none => Except.error "KeyError: DEFN_VRF")
    let defsL ← pyIterate defnVrf
    let names ← defsL.foldlM (vrfListStep deviceVrfIds) ([] : List Yaml)
    .ok (vars1 ++ [("vrf_list", Yaml.seq names)])
  else .ok vars1

/-- The device-specific tail of `convert_to_template_vars` (lines 138-147):
adds the `__device` marker and, when the hostname is a member of the
device-to-VRF mapping, the resolved `vrf_list`. -/
def device_augment (vars0 : List (String × Yaml)) (deviceHostname : String) :
    Except String (List (String × Yaml)) :=
  device_augment_tail
    (vars0 ++ [("__device", Yaml.map [(.s "hostname", .str deviceHostname)])])
    deviceHostname

/-- The embedding of `convert_to_template_vars`.  A `none` hostname covers
both `device_hostname=None` and the falsy empty string. -/
def convert_to_template_vars (d : Yaml) (deviceHostname : Option String) :
    Except String (List (String × Yaml)) := do
  let core ← convert_core d
  match deviceHostname with
  | some hn => device_augment core hn
  | none => Except.ok core

/-! ## The Validator: BGPEVPNDataModelConverter.validate_data_model -/

/-- One violation appended by `validate_data_model`.  The two set-bearing
messages interpolate a Python set, whose textual rendering depends on the
nondeterministic set iteration order; those violations are therefore kept
structurally, carrying the offending values. -/
inductive Violation where
  | requiredFieldMissing (path : String)
  | vrfIdsNotUnique
  | missingUnderlayLoopbacks (devices : List Yaml)
  | invalidVrfRefs (device : YKey) (ids : List Yaml)

/-- The deterministic part of the violation message text as produced by
`validate_data_model`; for the two set-bearing violations this is the fixed
descriptive head of the message, before the interpolated set. -/
def Violation.message : Violation → String
  | .requiredFieldMissing p => "Required field missing: " ++ p
  | .vrfIdsNotUnique => "VRF IDs must be unique"
  | .missingUnderlayLoopbacks _ => "Devices missing underlay loopbacks"
  | .invalidVrfRefs _ _ => "references invalid VRF IDs"

/-- The embedding of `validate_data_model` (lines 155-187): the four checks
run in sequence, each appending its violations; an uncaught Python exception
(for example a document whose `vrfs` section is missing) aborts the whole
validation. -/
def validate_data_model (d : Yaml) : Except String (List Violation) := do
  let validation ← pyDictGet d (.s "validation") (.map [])
  let reqRaw ← pyDictGet validation (.s "required_fields") (.seq [])
  let reqItems ← pyIterate reqRaw
  let reqPaths ← reqItems.mapM (fun p => match p with
      | .str sp => Except.ok sp
      | _ => Except.error "AttributeError: no attribute split")
  let e1 := (reqPaths.filter (fun p => !(check_field_exists d p))).map Violation.requiredFieldMissing
  let vrfsRaw ← pyPath d ["vrfs", "definitions"]
  let defsL ← pyIterate vrfsRaw
  let vrfIds ← defsL.mapM (fun v => pyGetItem v (.s "id"))
  let e2 := if vrfIds.length = (pySetOfList vrfIds).length then [] else [Violation.vrfIdsNotUnique]
  let roles ← pyPath d ["devices", "roles"]
  let roleVals ← (match roles with
      | .map kvs => Except.ok (kvs.map (fun kv => kv.2))
      | _ => Except.error "AttributeError: no attribute values")
  let roleElems ← roleVals.mapM pyIterate
  let allDevices := pySetOfList roleElems.flatten
  let und ← pyPath d ["devices", "loopbacks", "underlay"]
  let undKeys ← (match und with
      | .map kvs => Except.ok (kvs.map (fun kv => kv.1))
      | _ => Except.error "AttributeError: no attribute keys")
  let missing := allDevices.filter (fun v => !(undKeys.any (fun k => ykeyMatches k v)))
  let e3 := if missing.isEmpty then [] else [Violation.missingUnderlayLoopbacks missing]
  let dm ← pyPath d ["vrfs", "device_mappings"]
  let dmKvs ← (match dm with
      | .map kvs => Except.ok kvs
      | _ => Except.error "AttributeError: no attribute items")
  let validVrfIds := pySetOfList vrfIds
  let e4 ← dmKvs.foldlM (fun acc kv => do
      let mapped ← pyIterate kv.2
      let invalid := (pySetOfList mapped).filter
        (fun x => !(validVrfIds.any (fun y => Yaml.beq y x)))
      if invalid.isEmpty then Except.ok acc
      else Except.ok (acc ++ [Violation.invalidVrfRefs kv.1 invalid])) ([] : List Violation)
  .ok (e1 ++ e2 ++ e3 ++ e4)

/-! ## The Generator: generate_device_config.py -/

/-- The `available_templates` mapping (lines 39-57), in insertion order. -/
def available_templates : List (String × String) :=
  [("DEFN-VRF", "DEFN-VRF.j2"),
   ("DEFN-ROLES", "DEFN-ROLES.j2"),
   ("DEFN-LOOPBACKS", "DEFN-LOOPBACKS.j2"),
   ("DEFN-OVERLAY", "DEFN-OVERLAY.j2"),
   ("DEFN-L3OUT", "DEFN-L3OUT.j2"),
   ("DEFN-MCAST", "DEFN-MCAST.j2"),
   ("DEFN-VNIOFFSETS", "DEFN-VNIOFFSETS.j2"),
   ("DEFN-NAC-IOT", "DEFN-NAC-IOT.j2"),
   ("DEFN-IPSEC", "DEFN-IPSEC.j2"),
   ("FABRIC-VRF", "FABRIC-VRF.j2"),
   ("FABRIC-LOOPBACKS", "FABRIC-LOOPBACKS.j2"),
   ("FABRIC-NVE", "FABRIC-NVE.j2"),
   ("FABRIC-MCAST", "FABRIC-MCAST.j2"),
   ("FABRIC-EVPN", "FABRIC-EVPN.j2"),
   ("FABRIC-OVERLAY", "FABRIC-OVERLAY.j2"),
   ("FABRIC-NAC-IOT", "FABRIC-NAC-IOT.j2"),
   ("FABRIC-IPSEC", "FABRIC-IPSEC.j2")]

/-- Lexicographic code-point comparison of character sequences: the order
Python `sorted` uses on `str` values. -/
def charListLt : List Char → List Char → Bool
  | [], [] => false
  | [], _ :: _ => true
  | _ :: _, [] => false
  | a :: as, b :: bs =>
      if a.toNat < b.toNat then true
      else if b.toNat < a.toNat then false
      else charListLt as bs

def strLtB (a b : String) : Bool := charListLt a.data b.data

/-- Ascending insertion of a string into a sorted list, by the string order
Python `sorted` uses on `str` values. -/
def insertSorted (x : String) : List String → List String
  | [] => [x]
  | y :: ys => if strLtB x y then x :: y :: ys else y :: insertSorted x ys

def sortStrings (l : List String) : List String := l.foldr insertSorted []

/-- The embedding of `get_device_list` (lines 59-64): the union of all role
lists, sorted.  Python `sorted` raises only when it actually compares two
values without an order; the embedding requires every collected hostname to
be a string, which holds for every document exercised here. -/
def get_device_list (d : Yaml) : Except String (List String) := do
  let roles ← pyPath d ["devices", "roles"]
  let roleVals ← (match roles with
      | .map kvs => Except.ok (kvs.map (fun kv => kv.2))
      | _ => Except.error "AttributeError: no attribute values")
  let roleElems ← roleVals.mapM pyIterate
  let allDevices := pySetOfList roleElems.flatten
  let strs ← allDevices.mapM (fun v => match v with
      | .str sv => Except.ok sv
      | _ => Except.error "TypeError: str comparison unsupported")
  .ok (sortStrings strs)

/-- The embedding of `get_device_role` (lines 66-77): precedence-ordered
membership through `roles.get(..., [])`. -/
def get_device_role (d : Yaml) (deviceHostname : String) : Except String String := do
  let roles ← pyPath d ["devices", "roles"]
  let spineL ← pyDictGet roles (.s "spine") (.seq [])
  let inSpine ← pyIn (.str deviceHostname) spineL
  if inSpine then Except.ok "spine"
  else do
    let borderL ← pyDictGet roles (.s "border") (.seq [])
    let inBorder ← pyIn (.str deviceHostname) borderL
    if inBorder then Except.ok "border"
    else do
      let leafL ← pyDictGet roles (.s "leaf") (.seq [])
      let inLeaf ← pyIn (.str deviceHostname) leafL
      if inLeaf then Except.ok "leaf" else Except.ok "unknown"

/-! ### The fabric-template wrapper and its rendering

`_render_fabric_template` (lines 104-140) builds a wrapper template text by
Python f-string substitution (only `{device_hostname}` and
`{template_content}` are interpolated; the doubled braces of the f-string
become literal Jinja delimiters, so `template_file` inside the conditional
is a Jinja variable name, not the Python local), and renders it with
`jinja2.Template(wrapper_template)`.  Two facts about the external Jinja2
engine are taken as modelling assumptions, recorded here once:

1. `jinja2.Template(source)` builds the template in a fresh `Environment`
   with no loader, so rendering any `{% include %}` directive in it raises
   (`TypeError: no loader for this environment specified`).
2. Looking up a name absent from the render context yields `Undefined`, and
   `Undefined == "literal"` evaluates to `False` without raising.

The wrapper is embedded both as its exact text (`wrapper_text`) and as the
list of its top-level pieces (`wrapperPieces`) consumed by the evaluator. -/

inductive JinjaPiece where
  | includeFrag (name : String)
  | rawText (text : String)
  | fabricConditional (host : String)

/-- Names of the nine definition fragments plus the shared build-function
fragment included by the wrapper, in wrapper order (lines 114-123). -/
def wrapperIncludes : List String :=
  ["DEFN-VRF.j2", "DEFN-ROLES.j2", "DEFN-LOOPBACKS.j2", "DEFN-OVERLAY.j2",
   "DEFN-L3OUT.j2", "DEFN-MCAST.j2", "DEFN-VNIOFFSETS.j2", "DEFN-NAC-IOT.j2",
   "DEFN-IPSEC.j2", "FUNC-OBJECT-MACROS.j2"]

def wrapperPieces (templateContent deviceHostname : String) : List JinjaPiece :=
  [JinjaPiece.rawText "\n"]
  ++ wrapperIncludes.map JinjaPiece.includeFrag
  ++ [JinjaPiece.rawText ("\n" ++ templateContent ++ "\n\n"),
      JinjaPiece.fabricConditional deviceHostname]

/-- Source text of one wrapper piece, exactly as the f-string produces it. -/
def pieceSource : JinjaPiece → String
  | .includeFrag n => "\x7b% include \"" ++ n ++ "\" %\x7d\n"
  | .rawText t => t
  | .fabricConditional host =>
      "\x7b% if template_file == \"FABRIC-VRF.j2\" %\x7d\n"
      ++ "\x7b\x7b vrfDefinitionBuild(DEFN_VRF, DEFN_VRF_TO_NODE, \"" ++ host
      ++ "\", DEFN_LOOP_UNDERLAY, FABRIC_BGP_ASN) \x7d\x7d\n"
      ++ "\x7b% elif template_file == \"FABRIC-OVERLAY.j2\" %\x7d\n"
      ++ "\x7b\x7b overlayBuild(DEFN_VRF, DEFN_VRF_TO_NODE, \"" ++ host
      ++ "\", FABRIC_BGP_ASN, DEFN_OVERLAY, DEFN_NODE_ROLES, L2VNIOFFSET) \x7d\x7d\n"
      ++ "\x7b% endif %\x7d\n"

/-- The exact wrapper template text built at lines 113-132. -/
def wrapper_text (templateContent deviceHostname : String) : String :=
  String.join ((wrapperPieces templateContent deviceHostname).map pieceSource)

/-- The modelled Jinja environment: `loader = none` is the fresh environment
of `jinja2.Template(...)`; a `some` loader resolves include names. -/
structure JinjaEnvM where
  loader : Option (String → Except String String)

/-- Evaluation of one wrapper piece.  The second component records which
named build invocation (`vrfDefinitionBuild` or `overlayBuild`) the trailing
conditional executed, together with the hostname literal it passed; the
rendered text of an executed invocation is not modelled, only its
reachability. -/
def evalPiece (env : JinjaEnvM) (ctx : List (String × Yaml)) :
    JinjaPiece → Except String (String × List (String × String))
  | .includeFrag name =>
      match env.loader with
      | none => .error "TypeError: no loader for this environment specified"
      | some load => do
          let t ← load name
          Except.ok (t, [])
  | .rawText t => .ok (t, [])
  | .fabricConditional host =>
      match List.lookup "template_file" ctx with
      | none => .ok ("", [])
      | some (.str s) =>
          if s = "FABRIC-VRF.j2" then .ok ("", [("vrfDefinitionBuild", host)])
          else if s = "FABRIC-OVERLAY.j2" then .ok ("", [("overlayBuild", host)])
          else .ok ("", [])
      | some _ => .ok ("", [])

def evalPieces (env : JinjaEnvM) (ctx : List (String × Yaml)) :
    List JinjaPiece → Except String (String × List (String × String))
  | [] => .ok ("", [])
  | p :: ps => do
      let r ← evalPiece env ctx p
      let rest ← evalPieces env ctx ps
      Except.ok (r.1 ++ rest.1, r.2 ++ rest.2)

/-- External collaborators of the generator: reading a template file from the
templates directory, and rendering one template file through the generator
instance `jinja_env` (which has a `FileSystemLoader`). -/
structure RenderWorld where
  fsRead : String → Except String String
  envRender : String → List (String × Yaml) → Except String String

/-- The embedding of `_render_fabric_template`: the composed wrapper is
rendered by a loaderless standalone template; any failure falls back to
rendering the fabric template file in isolation (lines 137-140), in which
case no wrapper conditional exists at all. -/
def render_fabric_template (w : RenderWorld) (templateFile : String)
    (templateVars : List (String × Yaml)) (deviceHostname : String) :
    Except String (String × List (String × String)) :=
  let composed : Except String (String × List (String × String)) := do
    let content ← w.fsRead templateFile
    evalPieces { loader := none } templateVars (wrapperPieces content deviceHostname)
  match composed with
  | .ok r => .ok r
  | .error _ =>
      match w.envRender templateFile templateVars with
      | .ok t => .ok (t, [])
      | .error e => .error e

/-- The embedding of `generate_config` (lines 79-102).  The variable
conversion happens before the try block, so its exceptions propagate
unwrapped; render failures are wrapped in the RuntimeError text. -/
def generate_config (w : RenderWorld) (d : Yaml) (deviceHostname templateName : String) :
    Except String String :=
  match List.lookup templateName available_templates with
  | none => .error ("Template " ++ templateName ++ " not found")
  | some templateFile => do
      let templateVars ← convert_to_template_vars d (some deviceHostname)
      if strStarts templateName "DEFN-" then
        match w.envRender templateFile templateVars with
        | .ok c => Except.ok c
        | .error e => Except.error ("Error rendering template " ++ templateName ++ ": " ++ e)
      else
        match render_fabric_template w templateFile templateVars deviceHostname with
        | .ok r => Except.ok r.1
        | .error e => Except.error ("Error rendering template " ++ templateName ++ ": " ++ e)

/-- The definition templates selected at line 148: the `DEFN-` keys of
`available_templates`, in order. -/
def definition_templates : List String :=
  (available_templates.map (fun kv => kv.1)).filter (fun t => strStarts t "DEFN-")

/-- The fabric templates selected for a resolved role (lines 151-171). -/
def fabric_templates_for (role : String) : List String :=
  if role = "spine" ∨ role = "leaf" ∨ role = "border" then
    ["FABRIC-VRF", "FABRIC-LOOPBACKS", "FABRIC-NVE", "FABRIC-MCAST", "FABRIC-EVPN"]
    ++ (if role = "leaf" ∨ role = "border" then ["FABRIC-OVERLAY"] else [])
    ++ (if role = "leaf" then ["FABRIC-NAC-IOT"] else [])
    ++ (if role = "border" then ["FABRIC-IPSEC"] else [])
  else []

/-- The embedding of `generate_all_configs` (lines 142-183): the per-template
try/except replaces a failed render by the inline error string; the template
names are pairwise distinct, so the configs dict is the association list in
insertion order. -/
def generate_all_configs (w : RenderWorld) (d : Yaml) (deviceHostname : String) :
    Except String (List (String × String)) := do
  let role ← get_device_role d deviceHostname
  let allTemplates := definition_templates ++ fabric_templates_for role
  .ok (allTemplates.map (fun t =>
    (t, match generate_config w d deviceHostname t with
        | .ok c => c
        | .error e => "Error generating " ++ t ++ ": " ++ e)))

/-! ### The Writer -/

/-- The output directory as a store of named files; writing with mode w
truncates, so a write replaces any file of the same name. -/
abbrev FileStore := List (String × String)

def fsWrite (fs : FileStore) (name content : String) : FileStore :=
  (name, content) :: fs.filter (fun p => p.1 != name)

def configFileName (deviceHostname templateName : String) : String :=
  deviceHostname ++ "_" ++ templateName ++ ".cfg"

/-- File body written by `save_device_configs` (lines 196-201): a four-line
comment header, then the rendered text. -/
def bulkFileContent (templateName deviceHostname config : String) : String :=
  "! Configuration generated from " ++ templateName ++ " template\n"
  ++ "! Device: " ++ deviceHostname ++ "\n"
  ++ "! Generated by BGP EVPN Config Generator\n"
  ++ "!\n" ++ config

/-- File body written by the single-template branch of `main`
(lines 304-308): a three-line comment header, then the rendered text. -/
def singleFileContent (templateName deviceHostname config : String) : String :=
  "! Configuration generated from " ++ templateName ++ " template\n"
  ++ "! Device: " ++ deviceHostname ++ "\n"
  ++ "!\n" ++ config

/-- The embedding of `save_device_configs` (lines 185-203) acting on a file
store. -/
def save_device_configs (w : RenderWorld) (d : Yaml) (deviceHostname : String)
    (fs : FileStore) : Except String FileStore := do
  let configs ← generate_all_configs w d deviceHostname
  .ok (configs.foldl (fun acc tc =>
    fsWrite acc (configFileName deviceHostname tc.1)
      (bulkFileContent tc.1 deviceHostname tc.2)) fs)

/-- The `--template` branch of `main` without an output directory
(lines 275-320): unknown device or a raised generation error exits with
code 1; otherwise the configuration is printed.  An uncaught exception from
`get_device_list` also terminates the interpreter with a nonzero exit. -/
def main_single_template (w : RenderWorld) (d : Yaml)
    (deviceHostname templateName : String) : Except Nat String :=
  match get_device_list d with
  | .error _ => .error 1
  | .ok devs =>
      if devs.contains deviceHostname then
        match generate_config w d deviceHostname templateName with
        | .ok c => .ok c
        | .error _ => .error 1
      else .error 1

/-- The `--template` branch of `main` with an output directory
(lines 295-310), acting on a file store. -/
def main_single_template_write (w : RenderWorld) (d : Yaml)
    (deviceHostname templateName : String) (fs : FileStore) : Except Nat FileStore :=
  match get_device_list d with
  | .error _ => .error 1
  | .ok devs =>
      if devs.contains deviceHostname then
        match generate_config w d deviceHostname templateName with
        | .ok c => .ok (fsWrite fs (configFileName deviceHostname templateName)
                          (singleFileContent templateName deviceHostname c))
        | .error _ => .error 1
      else .error 1

/-- The `--all-templates` branch of `main` with an output directory. -/
def main_all_templates_write (w : RenderWorld) (d : Yaml)
    (deviceHostname : String) (fs : FileStore) : Except Nat FileStore :=
  match get_device_list d with
  | .error _ => .error 1
  | .ok devs =>
      if devs.contains deviceHostname then
        match save_device_configs w d deviceHostname fs with
        | .ok fs2 => .ok fs2
        | .error _ => .error 1
      else .error 1

/-! ## The fixed field schema of the Mapper

The Mapper performs fixed-schema dereferences only.  The predicate
`mapper_fields_present` states, independently of the conversion code, that a
document presents every field the mapping dereferences: the scalar paths are
stated through the same mapping-key traversal the validator uses for its
required-field check, and each collection carries records with the fixed key
set read by the reshaping loops. -/

def hasKeyB (v : Yaml) (k : String) : Bool :=
  match v with
  | .map kvs => (yamlLookup kvs (.s k)).isSome
  | _ => false

def seqAll (v : Yaml) (p : Yaml → Bool) : Bool :=
  match v with
  | .seq xs => xs.all p
  | _ => false

def mapValsAll (v : Yaml) (p : Yaml → Bool) : Bool :=
  match v with
  | .map kvs => kvs.all (fun kv => p kv.2)
  | _ => false

def isSeqB : Yaml → Bool
  | .seq _ => true
  | _ => false

def vlanFieldsOK (v : Yaml) : Bool :=
  hasKeyB v "name" && hasKeyB v "ip_address" && hasKeyB v "mac_address"
  && hasKeyB v "dhcp_helper" && hasKeyB v "bum_address"

def overlayFieldsOK (o : Yaml) : Bool :=
  hasKeyB o "vrf" &&
  (match o with
   | .map kvs =>
      match yamlLookup kvs (.s "vlans") with
      | some vl => mapValsAll vl vlanFieldsOK
      | none => false
   | _ => false)

def l3IntfFieldsOK (v : Yaml) : Bool :=
  hasKeyB v "name" && hasKeyB v "vlan" && hasKeyB v "ip_address" && hasKeyB v "neighbor_ip"

def l3ConnFieldsOK (c : Yaml) : Bool :=
  hasKeyB c "vrf" && hasKeyB c "device" && hasKeyB c "neighbor_asn" &&
  (match c with
   | .map kvs =>
      match yamlLookup kvs (.s "interfaces") with
      | some intf => mapValsAll intf l3IntfFieldsOK
      | none => false
   | _ => false)

def nacFieldsOK (v : Yaml) : Bool :=
  hasKeyB v "vrf" && hasKeyB v "server_ip" && hasKeyB v "shared_key"

def tunnelFieldsOK (v : Yaml) : Bool :=
  hasKeyB v "tunnel_ip" && hasKeyB v "peer_ip" && hasKeyB v "tunnel_destination"
  && hasKeyB v "tunnel_mode" && hasKeyB v "peer_bgp_asn"

def vrfDefFieldsOK (v : Yaml) : Bool :=
  hasKeyB v "id" && hasKeyB v "name"

def optSat (o : Option Yaml) (p : Yaml → Bool) : Bool :=
  match o with
  | some v => p v
  | none => false

def mapper_fields_present (d : Yaml) : Prop :=
  walkPath d ["fabric", "bgp_asn"] = true
  ∧ walkPath d ["fabric", "underlay"] = true
  ∧ walkPath d ["fabric", "ipsec_underlay"] = true
  ∧ walkPath d ["vni_offsets", "l2_vni_offset"] = true
  ∧ walkPath d ["vni_offsets", "l3_vni_offset"] = true
  ∧ walkPath d ["multicast", "fabric_rp", "address"] = true
  ∧ walkPath d ["multicast", "fabric_rp", "scopes"] = true
  ∧ walkPath d ["multicast", "enterprise_rp", "address"] = true
  ∧ walkPath d ["multicast", "enterprise_rp", "scopes"] = true
  ∧ walkPath d ["devices", "roles", "spine"] = true
  ∧ walkPath d ["devices", "roles", "route_reflector"] = true
  ∧ walkPath d ["devices", "roles", "client"] = true
  ∧ walkPath d ["devices", "roles", "border"] = true
  ∧ walkPath d ["devices", "loopbacks", "underlay"] = true
  ∧ walkPath d ["devices", "loopbacks", "ipsec"] = true
  ∧ walkPath d ["devices", "loopbacks", "multi_cluster"] = true
  ∧ walkPath d ["devices", "loopbacks", "overlay_prefixes"] = true
  ∧ walkPath d ["devices", "loopbacks", "interface_names"] = true
  ∧ optSat (pathGet d ["vrfs", "definitions"]) (fun v => seqAll v vrfDefFieldsOK) = true
  ∧ optSat (pathGet d ["vrfs", "device_mappings"]) (fun v => mapValsAll v isSeqB) = true
  ∧ optSat (pathGet d ["overlay_networks"]) (fun v => seqAll v overlayFieldsOK) = true
  ∧ optSat (pathGet d ["l3_external", "connections"]) (fun v => seqAll v l3ConnFieldsOK) = true
  ∧ walkPath d ["l3_external", "aggregate_routes"] = true
  ∧ optSat (pathGet d ["network_access_control", "servers"]) (fun v => seqAll v nacFieldsOK) = true
  ∧ optSat (pathGet d ["ipsec", "tunnels"])
       (fun v => mapValsAll v (fun ts => seqAll ts tunnelFieldsOK)) = true

instance (d : Yaml) : Decidable (mapper_fields_present d) := by
  unfold mapper_fields_present; infer_instance

/-! ## Concrete documents used by witnesses and counterexamples -/

/-- A complete, schema-conforming data model: one spine `s1`, one border
`b1`, one leaf `l1`, one route reflector `rr1`, two VRFs (ids 10 and 20),
VRF 10 mapped to the leaf, every role-listed hostname with an underlay
loopback, no required-field list. -/
def sampleDoc : Yaml := .map
  [(.s "fabric", .map [(.s "bgp_asn", .int 65001), (.s "underlay", .str "ospf"),
                       (.s "ipsec_underlay", .bool false)]),
   (.s "vni_offsets", .map [(.s "l2_vni_offset", .int 10000), (.s "l3_vni_offset", .int 50000)]),
   (.s "multicast", .map
     [(.s "fabric_rp", .map [(.s "address", .str "239.1.1.1"), (.s "scopes", .seq [.int 8])]),
      (.s "enterprise_rp", .map [(.s "address", .str "239.2.2.2"), (.s "scopes", .seq [.int 16])])]),
   (.s "devices", .map
     [(.s "roles", .map
        [(.s "spine", .seq [.str "s1"]),
         (.s "border", .seq [.str "b1"]),
         (.s "leaf", .seq [.str "l1"]),
         (.s "route_reflector", .seq [.str "rr1"]),
         (.s "client", .seq [])]),
      (.s "loopbacks", .map
        [(.s "underlay", .map [(.s "s1", .str "10.0.0.1"), (.s "b1", .str "10.0.0.2"),
                               (.s "l1", .str "10.0.0.3"), (.s "rr1", .str "10.0.0.4")]),
         (.s "ipsec", .map [(.s "b1", .str "10.1.0.2")]),
         (.s "multi_cluster", .map []),
         (.s "overlay_prefixes", .map [(.s "l1", .str "10.2.0.0/24")]),
         (.s "interface_names", .map [(.s "underlay", .str "Loopback0")])])]),
   (.s "vrfs", .map
     [(.s "definitions", .seq
        [.map [(.s "id", .int 10), (.s "name", .str "VRF_A")],
         .map [(.s "id", .int 20), (.s "name", .str "VRF_B")]]),
      (.s "device_mappings", .map [(.s "l1", .seq [.int 10])])]),
   (.s "overlay_networks", .seq
     [.map [(.s "vrf", .str "VRF_A"),
            (.s "vlans", .map
              [(.i 100, .map [(.s "name", .str "v100"), (.s "ip_address", .str "10.3.0.1/24"),
                              (.s "mac_address", .str "0000.0000.0001"),
                              (.s "dhcp_helper", .seq [.str "10.9.0.1"]),
                              (.s "bum_address", .str "239.3.3.3")])])]]),
   (.s "l3_external", .map
     [(.s "connections", .seq
        [.map [(.s "vrf", .str "VRF_A"), (.s "device", .str "b1"),
               (.s "neighbor_asn", .int 65099),
               (.s "interfaces", .map
                 [(.s "Te1/0/1", .map [(.s "name", .str "uplink"), (.s "vlan", .int 3001),
                                       (.s "ip_address", .str "192.0.2.1/30"),
                                       (.s "neighbor_ip", .str "192.0.2.2")])])]]),
      (.s "aggregate_routes", .seq [.str "10.0.0.0/8"])]),
   (.s "network_access_control", .map
     [(.s "servers", .seq
        [.map [(.s "vrf", .str "VRF_A"), (.s "server_ip", .str "10.4.0.1"),
               (.s "shared_key", .str "k1")]])]),
   (.s "ipsec", .map
     [(.s "tunnels", .map
        [(.s "b1", .seq
           [.map [(.s "tunnel_ip", .str "172.16.0.1/30"), (.s "peer_ip", .str "198.51.100.1"),
                  (.s "tunnel_destination", .str "198.51.100.2"), (.s "tunnel_mode", .str "ipsec ipv4"),
                  (.s "peer_bgp_asn", .int 65002)]])])])]

/-- The sample document with the leaf mapped to VRF ids `[10, 99]`, id 99
having no definition: the silently-skipped-id scenario of the spec. -/
def skewDoc : Yaml :=
  let replaceVrfs : List (YKey × Yaml) → List (YKey × Yaml) := fun kvs =>
    kvs.map (fun kv =>
      if kv.1 = YKey.s "vrfs" then
        (YKey.s "vrfs", Yaml.map
          [(.s "definitions", .seq
             [.map [(.s "id", .int 10), (.s "name", .str "VRF_A")],
              .map [(.s "id", .int 20), (.s "name", .str "VRF_B")]]),
           (.s "device_mappings", .map [(.s "l1", .seq [.int 10, .int 99])])])
      else kv)
  match sampleDoc with
  | .map kvs => .map (replaceVrfs kvs)
  | v => v

/-- A document the Validator accepts in full (no violations) yet the Mapper
cannot convert: it has no `validation` section, an empty role table, an
empty underlay loopback table, no VRF definitions and no device mappings —
and no `fabric` section, the first field the Mapper dereferences. -/
def acceptedIncompleteDoc : Yaml := .map
  [(.s "devices", .map
     [(.s "roles", .map []),
      (.s "loopbacks", .map [(.s "underlay", .map [])])]),
   (.s "vrfs", .map
     [(.s "definitions", .seq []),
      (.s "device_mappings", .map [])])]

/-- A document with two VRF definitions sharing id 5, and a leaf `lx` with
no underlay loopback entry. -/
def dupDoc : Yaml := .map
  [(.s "devices", .map
     [(.s "roles", .map [(.s "leaf", .seq [.str "lx"])]),
      (.s "loopbacks", .map [(.s "underlay", .map [])])]),
   (.s "vrfs", .map
     [(.s "definitions", .seq
        [.map [(.s "id", .int 5), (.s "name", .str "A")],
         .map [(.s "id", .int 5), (.s "name", .str "B")]]),
      (.s "device_mappings", .map [])])]

/-- A document whose hostname `x` sits in both the spine and the leaf role
lists. -/
def dualRoleDoc : Yaml := .map
  [(.s "devices", .map
     [(.s "roles", .map
        [(.s "spine", .seq [.str "x"]),
         (.s "leaf", .seq [.str "x"]),
         (.s "route_reflector", .seq [.str "x"]),
         (.s "client", .seq [.str "x"])])])]

/-! ## Statement helpers

These definitions are used only to state theorems; the embedded program
functions above never mention them. -/

/-- Whether the role list stored under key `r` of the roles table contains
the hostname (by Python equality); false when the key is absent or its value
is not a list. -/
def roleListHas (rk : List (YKey × Yaml)) (r deviceHostname : String) : Bool :=
  match yamlLookup rk (.s r) with
  | some (.seq xs) => xs.any (fun y => Yaml.beq y (.str deviceHostname))
  | _ => false

/-- A render world whose template reads and renders always succeed with
fixed text. -/
def trivialWorld : RenderWorld :=
  { fsRead := fun _ => .ok "BODY", envRender := fun f _ => .ok ("R:" ++ f) }

/-- A render world in which exactly the template file DEFN-VRF.j2 fails to
render. -/
def oneFailWorld : RenderWorld :=
  { fsRead := fun _ => .ok "BODY",
    envRender := fun f _ =>
      if f = "DEFN-VRF.j2" then .error "boom" else .ok ("R:" ++ f) }

/-- The template variables the Mapper produces for the leaf of `sampleDoc`. -/
def sampleVars : List (String × Yaml) :=
  match convert_to_template_vars sampleDoc (some "l1") with
  | .ok v => v
  | .error _ => []

/-- The template variables the Mapper produces for the leaf of `skewDoc`. -/
def skewVars : List (String × Yaml) :=
  match convert_to_template_vars skewDoc (some "l1") with
  | .ok v => v
  | .error _ => []

/-! ## Lemmas about the embedding primitives -/

mutual

theorem Yaml.beq_refl : (x : Yaml) → Yaml.beq x x = true
  | .null => rfl
  | .bool a => by simp [Yaml.beq]
  | .int a => by simp [Yaml.beq]
  | .str a => by simp [Yaml.beq]
  | .seq xs => by simp [Yaml.beq, yamlListBeq_refl xs]
  | .map xs => by simp [Yaml.beq, yamlKvsBeq_refl xs]

theorem yamlListBeq_refl : (xs : List Yaml) → yamlListBeq xs xs = true
  | [] => rfl
  | x :: xs => by simp [yamlListBeq, Yaml.beq_refl x, yamlListBeq_refl xs]

theorem yamlKvsBeq_refl : (xs : List (YKey × Yaml)) → yamlKvsBeq xs xs = true
  | [] => rfl
  | (k, x) :: xs => by simp [yamlKvsBeq, Yaml.beq_refl x, yamlKvsBeq_refl xs]

end

mutual

theorem Yaml.eq_of_beq : {x y : Yaml} → Yaml.beq x y = true → x = y
  | .null, .null, _ => rfl
  | .bool a, .bool b, h => by simp [Yaml.beq] at h; simp [h]
  | .int a, .int b, h => by simp [Yaml.beq] at h; simp [h]
  | .str a, .str b, h => by simp [Yaml.beq] at h; simp [h]
  | .seq xs, .seq ys, h => by
      simp only [Yaml.beq] at h
      simp [yamlList_eq_of_beq h]
  | .map xs, .map ys, h => by
      simp only [Yaml.beq] at h
      simp [yamlKvs_eq_of_beq h]

theorem yamlList_eq_of_beq : {xs ys : List Yaml} → yamlListBeq xs ys = true → xs = ys
  | [], [], _ => rfl
  | x :: xs, y :: ys, h => by
      simp only [yamlListBeq, Bool.and_eq_true] at h
      simp [Yaml.eq_of_beq h.1, yamlList_eq_of_beq h.2]

theorem yamlKvs_eq_of_beq : {xs ys : List (YKey × Yaml)} → yamlKvsBeq xs ys = true → xs = ys
  | [], [], _ => rfl
  | (k, x) :: xs, (l, y) :: ys, h => by
      simp only [yamlKvsBeq, Bool.and_eq_true] at h
      obtain ⟨⟨h1, h2⟩, h3⟩ := h
      simp [eq_of_beq h1, Yaml.eq_of_beq h2, yamlKvs_eq_of_beq h3]

end

theorem Yaml.beq_iff_eq (x y : Yaml) : Yaml.beq x y = true ↔ x = y :=
  ⟨Yaml.eq_of_beq, fun h => h ▸ Yaml.beq_refl x⟩

theorem yamlAny_beq_iff_mem (xs : List Yaml) (x : Yaml) :
    (xs.any (fun y => Yaml.beq y x)) = true ↔ x ∈ xs := by
  simp [List.any_eq_true, Yaml.beq_iff_eq]

theorem ykeyMatches_iff (k : YKey) (x : Yaml) :
    ykeyMatches k x = true ↔ x = k.toYaml := by
  cases k <;> cases x <;> simp [ykeyMatches, YKey.toYaml] <;>
    constructor <;> intro h <;> exact h.symm

theorem yamlLookup_mem : ∀ (kvs : List (YKey × Yaml)) (k : YKey) (v : Yaml),
    yamlLookup kvs k = some v → (k, v) ∈ kvs := by
  intro kvs
  induction kvs with
  | nil => intro k v h; cases h
  | cons kv rest ih =>
      obtain ⟨k0, v0⟩ := kv
      intro k v h
      unfold yamlLookup at h
      split at h
      · rename_i heq; cases h; subst heq; exact List.mem_cons_self _ _
      · exact List.mem_cons_of_mem _ (ih k v h)

theorem pySetInsert_subset (acc : List Yaml) (x y : Yaml) (h : y ∈ acc) :
    y ∈ pySetInsert acc x := by
  unfold pySetInsert; split <;> simp [h]

theorem mem_pySetInsert_self (acc : List Yaml) (x : Yaml) : x ∈ pySetInsert acc x := by
  unfold pySetInsert; split
  · rename_i hc; exact (yamlAny_beq_iff_mem acc x).mp hc
  · simp

theorem pySetInsert_length_le (acc : List Yaml) (x : Yaml) :
    (pySetInsert acc x).length ≤ acc.length + 1 := by
  unfold pySetInsert; split <;> simp

theorem pySetInsert_of_mem (acc : List Yaml) (x : Yaml) (h : x ∈ acc) :
    pySetInsert acc x = acc := by
  unfold pySetInsert
  rw [if_pos ((yamlAny_beq_iff_mem acc x).mpr h)]

theorem foldl_pySetInsert_mem (xs : List Yaml) : ∀ (acc : List Yaml) (x : Yaml),
    x ∈ acc → x ∈ xs.foldl pySetInsert acc := by
  induction xs with
  | nil => intro acc x h; simpa using h
  | cons x0 xs ih => intro acc x h; exact ih _ _ (pySetInsert_subset _ _ _ h)

theorem mem_pySetOfList_aux (xs : List Yaml) : ∀ (acc : List Yaml) (x : Yaml),
    x ∈ xs → x ∈ xs.foldl pySetInsert acc := by
  induction xs with
  | nil => intro _ _ h; cases h
  | cons x0 xs ih =>
      intro acc x h
      rcases List.mem_cons.mp h with h | h
      · subst h; exact foldl_pySetInsert_mem xs _ _ (mem_pySetInsert_self acc x)
      · exact ih _ _ h

theorem mem_pySetOfList (xs : List Yaml) (x : Yaml) (h : x ∈ xs) : x ∈ pySetOfList xs :=
  mem_pySetOfList_aux xs [] x h

theorem foldl_pySetInsert_length (xs : List Yaml) : ∀ acc : List Yaml,
    (xs.foldl pySetInsert acc).length ≤ acc.length + xs.length := by
  induction xs with
  | nil => simp
  | cons x0 xs ih =>
      intro acc
      have h1 : ((x0 :: xs).foldl pySetInsert acc) = xs.foldl pySetInsert (pySetInsert acc x0) := rfl
      rw [h1]
      have h2 := ih (pySetInsert acc x0)
      have h3 := pySetInsert_length_le acc x0
      simp only [List.length_cons]
      omega

theorem pySetOfList_length_lt_of_dup (l1 l2 l3 : List Yaml) (a : Yaml) :
    (pySetOfList (l1 ++ a :: (l2 ++ a :: l3))).length < (l1 ++ a :: (l2 ++ a :: l3)).length := by
  unfold pySetOfList
  rw [List.foldl_append, List.foldl_cons, List.foldl_append, List.foldl_cons]
  have hmem : a ∈ l2.foldl pySetInsert (pySetInsert (l1.foldl pySetInsert []) a) :=
    foldl_pySetInsert_mem l2 _ _ (mem_pySetInsert_self _ a)
  rw [pySetInsert_of_mem _ _ hmem]
  have hA := foldl_pySetInsert_length l1 []
  have hB := pySetInsert_length_le (l1.foldl pySetInsert []) a
  have hC := foldl_pySetInsert_length l2 (pySetInsert (l1.foldl pySetInsert []) a)
  have hD := foldl_pySetInsert_length l3
    (l2.foldl pySetInsert (pySetInsert (l1.foldl pySetInsert []) a))
  simp only [List.length_append, List.length_cons, List.length_nil] at *
  omega

theorem mapM_ok_of_all {α β : Type} (f : α → Except String β) (p : α → Bool)
    (hf : ∀ a, p a = true → ∃ b, f a = .ok b) :
    ∀ xs : List α, xs.all p = true → ∃ ys, xs.mapM f = .ok ys := by
  intro xs
  induction xs with
  | nil => intro _; exact ⟨[], rfl⟩
  | cons x xs ih =>
      intro hall
      simp only [List.all_cons, Bool.and_eq_true] at hall
      obtain ⟨b, hb⟩ := hf x hall.1
      obtain ⟨ys, hys⟩ := ih hall.2
      exact ⟨b :: ys, by rw [List.mapM_cons, hb, hys]; rfl⟩

theorem mapM_mem_ok {α β : Type} (f : α → Except String β) :
    ∀ (xs : List α) (ys : List β), xs.mapM f = .ok ys →
      ∀ x ∈ xs, ∃ y, y ∈ ys ∧ f x = .ok y := by
  intro xs
  induction xs with
  | nil => intro ys h x hx; cases hx
  | cons x0 xs ih =>
      intro ys h x hx
      rw [List.mapM_cons] at h
      cases hf : f x0 with
      | error e =>
          rw [hf] at h
          exact absurd ((rfl : Except.error (ε := String) e = Except.error e).trans h)
            (by intro hc; cases hc)
      | ok b =>
          rw [hf] at h
          cases hm : xs.mapM f with
          | error e =>
              rw [hm] at h
              exact absurd ((rfl : Except.error (ε := String) e = Except.error e).trans h)
                (by intro hc; cases hc)
          | ok ys0 =>
              rw [hm] at h
              have h2 : Except.ok (ε := String) (b :: ys0) = Except.ok ys := h
              cases h2
              rcases List.mem_cons.mp hx with hx | hx
              · exact ⟨b, List.mem_cons_self _ _, hx ▸ hf⟩
              · obtain ⟨y, hy1, hy2⟩ := ih ys0 hm x hx
                exact ⟨y, List.mem_cons_of_mem _ hy1, hy2⟩

theorem foldlM_ok_of_all {α β : Type} (f : β → α → Except String β) (p : α → Bool)
    (hf : ∀ b a, p a = true → ∃ b2, f b a = .ok b2) :
    ∀ (xs : List α) (b : β), xs.all p = true → ∃ out, xs.foldlM f b = .ok out := by
  intro xs
  induction xs with
  | nil => intro b _; exact ⟨b, rfl⟩
  | cons x xs ih =>
      intro b hall
      simp only [List.all_cons, Bool.and_eq_true] at hall
      obtain ⟨b2, hb2⟩ := hf b x hall.1
      obtain ⟨out, hout⟩ := ih b2 hall.2
      exact ⟨out, by rw [List.foldlM_cons, hb2]; exact hout⟩

theorem walkPath_eq_isSome : ∀ (ps : List String) (d : Yaml),
    walkPath d ps = (pathGet d ps).isSome := by
  intro ps
  induction ps with
  | nil => intro d; cases d <;> rfl
  | cons p ps ih =>
      intro d
      cases d <;> (try rfl)
      rename_i kvs
      show walkPath (Yaml.map kvs) (p :: ps) = (pathGet (Yaml.map kvs) (p :: ps)).isSome
      simp only [walkPath, pathGet]
      cases h : yamlLookup kvs (.s p) with
      | none => rfl
      | some v => exact ih v

theorem pathGet_nil (d : Yaml) : pathGet d [] = some d := by cases d <;> rfl

theorem pathGet_pyPath : ∀ (ps : List String) (d v : Yaml),
    pathGet d ps = some v → pyPath d ps = .ok v := by
  intro ps
  induction ps with
  | nil =>
      intro d v h
      rw [pathGet_nil] at h
      cases h
      rfl
  | cons p ps ih =>
      intro d v h
      cases d <;> simp only [pathGet] at h <;> try cases h
      rename_i kvs
      cases hl : yamlLookup kvs (.s p) with
      | none => rw [hl] at h; cases h
      | some w =>
          rw [hl] at h
          show (do
            let v2 ← pyGetItem (Yaml.map kvs) (.s p)
            pyPath v2 ps) = .ok v
          have hg : pyGetItem (Yaml.map kvs) (.s p) = .ok w := by
            simp [pyGetItem, hl]
          rw [hg]
          exact ih w v h

theorem walkPath_pyPath (d : Yaml) (ps : List String) (h : walkPath d ps = true) :
    ∃ v, pathGet d ps = some v ∧ pyPath d ps = .ok v := by
  rw [walkPath_eq_isSome] at h
  cases hp : pathGet d ps with
  | none => rw [hp] at h; cases h
  | some v => exact ⟨v, rfl, pathGet_pyPath ps d v hp⟩

theorem hasKeyB_getItem (v : Yaml) (k : String) (h : hasKeyB v k = true) :
    ∃ kvs w, v = .map kvs ∧ yamlLookup kvs (.s k) = some w ∧ pyGetItem v (.s k) = .ok w := by
  cases v <;> simp only [hasKeyB] at h <;> try cases h
  rename_i kvs
  cases hl : yamlLookup kvs (.s k) with
  | none => rw [hl] at h; cases h
  | some w => exact ⟨kvs, w, rfl, hl, by simp [pyGetItem, hl]⟩

theorem mapValsAll_cases (v : Yaml) (p : Yaml → Bool) (h : mapValsAll v p = true) :
    ∃ kvs, v = .map kvs ∧ kvs.all (fun kv => p kv.2) = true := by
  cases v <;> simp only [mapValsAll] at h <;> try cases h
  exact ⟨_, rfl, h⟩

theorem seqAll_cases (v : Yaml) (p : Yaml → Bool) (h : seqAll v p = true) :
    ∃ xs, v = .seq xs ∧ xs.all p = true := by
  cases v <;> simp only [seqAll] at h <;> try cases h
  exact ⟨_, rfl, h⟩

theorem vlanTransform_ok (vc : Yaml) (h : vlanFieldsOK vc = true) :
    ∃ r, vlanTransform vc = .ok r := by
  simp only [vlanFieldsOK, Bool.and_eq_true] at h
  obtain ⟨⟨⟨⟨h1, h2⟩, h3⟩, h4⟩, h5⟩ := h
  obtain ⟨_, n, _, _, hn⟩ := hasKeyB_getItem vc _ h1
  obtain ⟨_, ip, _, _, hip⟩ := hasKeyB_getItem vc _ h2
  obtain ⟨_, mac, _, _, hmac⟩ := hasKeyB_getItem vc _ h3
  obtain ⟨_, dh, _, _, hdh⟩ := hasKeyB_getItem vc _ h4
  obtain ⟨_, bum, _, _, hbum⟩ := hasKeyB_getItem vc _ h5
  exact ⟨.map [(.s "name", n), (.s "ipaddr", ip), (.s "mac", mac),
               (.s "dhcp_helper", dh), (.s "bum_addr", bum)],
    by unfold vlanTransform; rw [hn, hip, hmac, hdh, hbum]; rfl⟩

theorem kvsTransform_ok (f : Yaml → Except String Yaml) (p : Yaml → Bool)
    (hf : ∀ v, p v = true → ∃ r, f v = .ok r) (kvs : List (YKey × Yaml))
    (hall : kvs.all (fun kv => p kv.2) = true) :
    ∃ ys, kvs.mapM (fun kv => do
      let v ← f kv.2
      Except.ok (kv.1, v)) = .ok ys :=
  mapM_ok_of_all _ (fun kv => p kv.2)
    (fun kv hkv => by
      obtain ⟨r, hr⟩ := hf kv.2 hkv
      exact ⟨(kv.1, r), by rw [hr]; rfl⟩)
    kvs hall

theorem overlayTransform_ok (o : Yaml) (h : overlayFieldsOK o = true) :
    ∃ r, overlayTransform o = .ok r := by
  simp only [overlayFieldsOK, Bool.and_eq_true] at h
  obtain ⟨h1, h2⟩ := h
  obtain ⟨kvs, vrf, he, _, hvrf⟩ := hasKeyB_getItem o _ h1
  subst he
  have h2b : (match yamlLookup kvs (.s "vlans") with
      | some vl => mapValsAll vl vlanFieldsOK
      | none => false) = true := h2
  clear h2
  cases hvl : yamlLookup kvs (.s "vlans") with
  | none => rw [hvl] at h2b; cases h2b
  | some vl =>
      rw [hvl] at h2b
      rename' h2b => h2
      obtain ⟨vlkvs, hvlk, hallv⟩ := mapValsAll_cases vl _ h2
      subst hvlk
      obtain ⟨ys, hys⟩ := kvsTransform_ok vlanTransform vlanFieldsOK vlanTransform_ok vlkvs hallv
      refine ⟨.map [(.s "vrf", vrf), (.s "vlans", .map ys)], ?_⟩
      unfold overlayTransform
      rw [hvrf]
      have hgv : pyGetItem (Yaml.map kvs) (.s "vlans") = .ok (.map vlkvs) := by
        simp [pyGetItem, hvl]
      rw [hgv]
      show (vlkvs.mapM (fun kv : YKey × Yaml => do
          let v ← vlanTransform kv.2
          Except.ok (kv.1, v)) >>= fun vlans =>
        Except.ok (Yaml.map [(.s "vrf", vrf), (.s "vlans", .map vlans)])) =
        Except.ok (Yaml.map [(.s "vrf", vrf), (.s "vlans", .map ys)])
      rw [hys]
      rfl

theorem l3IntfTransform_ok (ic : Yaml) (h : l3IntfFieldsOK ic = true) :
    ∃ r, l3IntfTransform ic = .ok r := by
  simp only [l3IntfFieldsOK, Bool.and_eq_true] at h
  obtain ⟨⟨⟨h1, h2⟩, h3⟩, h4⟩ := h
  obtain ⟨_, n, _, _, hn⟩ := hasKeyB_getItem ic _ h1
  obtain ⟨_, vlan, _, _, hvlan⟩ := hasKeyB_getItem ic _ h2
  obtain ⟨_, ip, _, _, hip⟩ := hasKeyB_getItem ic _ h3
  obtain ⟨_, nb, _, _, hnb⟩ := hasKeyB_getItem ic _ h4
  exact ⟨.map [(.s "name", n), (.s "vlan", vlan), (.s "ipaddr", ip), (.s "neighbour", nb)],
    by unfold l3IntfTransform; rw [hn, hvlan, hip, hnb]; rfl⟩

theorem l3Transform_ok (c : Yaml) (h : l3ConnFieldsOK c = true) :
    ∃ r, l3Transform c = .ok r := by
  simp only [l3ConnFieldsOK, Bool.and_eq_true] at h
  obtain ⟨⟨⟨h1, h2⟩, h3⟩, h4⟩ := h
  obtain ⟨kvs, vrf, he, _, hvrf⟩ := hasKeyB_getItem c _ h1
  subst he
  obtain ⟨_, node, heq2, _, hnode⟩ := hasKeyB_getItem _ _ h2
  obtain ⟨_, asn, heq3, _, hasn⟩ := hasKeyB_getItem _ _ h3
  cases heq2
  cases heq3
  have h4b : (match yamlLookup kvs (.s "interfaces") with
      | some intf => mapValsAll intf l3IntfFieldsOK
      | none => false) = true := h4
  clear h4
  cases hil : yamlLookup kvs (.s "interfaces") with
  | none => rw [hil] at h4b; cases h4b
  | some intf =>
      rw [hil] at h4b
      obtain ⟨intfKvs, hik, hall⟩ := mapValsAll_cases intf _ h4b
      subst hik
      obtain ⟨ys, hys⟩ := kvsTransform_ok l3IntfTransform l3IntfFieldsOK l3IntfTransform_ok intfKvs hall
      refine ⟨.map [(.s "vrf", vrf), (.s "node", node), (.s "neighbour_asn", asn),
                    (.s "interfaces", .map ys)], ?_⟩
      unfold l3Transform
      rw [hvrf, hnode, hasn]
      have hgi : pyGetItem (Yaml.map kvs) (.s "interfaces") = .ok (.map intfKvs) := by
        simp [pyGetItem, hil]
      rw [hgi]
      show (intfKvs.mapM (fun kv : YKey × Yaml => do
          let v ← l3IntfTransform kv.2
          Except.ok (kv.1, v)) >>= fun intfs =>
        Except.ok (Yaml.map [(.s "vrf", vrf), (.s "node", node), (.s "neighbour_asn", asn),
                             (.s "interfaces", .map intfs)])) = _
      rw [hys]
      rfl

theorem nacTransform_ok (sv : Yaml) (h : nacFieldsOK sv = true) :
    ∃ r, nacTransform sv = .ok r := by
  simp only [nacFieldsOK, Bool.and_eq_true] at h
  obtain ⟨⟨h1, h2⟩, h3⟩ := h
  obtain ⟨_, vrf, _, _, hvrf⟩ := hasKeyB_getItem sv _ h1
  obtain ⟨_, ip, _, _, hip⟩ := hasKeyB_getItem sv _ h2
  obtain ⟨_, key, _, _, hkey⟩ := hasKeyB_getItem sv _ h3
  exact ⟨.map [(.s "vrf", vrf), (.s "nac_ip", ip), (.s "nac_key", key)],
    by unfold nacTransform; rw [hvrf, hip, hkey]; rfl⟩

theorem tunnelTransform_ok (t : Yaml) (h : tunnelFieldsOK t = true) :
    ∃ r, tunnelTransform t = .ok r := by
  simp only [tunnelFieldsOK, Bool.and_eq_true] at h
  obtain ⟨⟨⟨⟨h1, h2⟩, h3⟩, h4⟩, h5⟩ := h
  obtain ⟨_, tip, _, _, htip⟩ := hasKeyB_getItem t _ h1
  obtain ⟨_, pip, _, _, hpip⟩ := hasKeyB_getItem t _ h2
  obtain ⟨_, dst, _, _, hdst⟩ := hasKeyB_getItem t _ h3
  obtain ⟨_, mode, _, _, hmode⟩ := hasKeyB_getItem t _ h4
  obtain ⟨_, asn, _, _, hasn⟩ := hasKeyB_getItem t _ h5
  exact ⟨.map [(.s "tun_ip", tip), (.s "peer_ip", pip), (.s "tun_dst", dst),
               (.s "tun_mode", mode), (.s "peer_bgp_asn", asn)],
    by unfold tunnelTransform; rw [htip, hpip, hdst, hmode, hasn]; rfl⟩

theorem ipsecEntry_ok (kv : YKey × Yaml)
    (h : (fun ts => seqAll ts tunnelFieldsOK) kv.2 = true) :
    ∃ r, (do
      let ts ← pyIterate kv.2
      let ts2 ← ts.mapM tunnelTransform
      Except.ok (kv.1, Yaml.seq ts2)) = .ok r := by
  obtain ⟨xs, hx, hall⟩ := seqAll_cases kv.2 _ h
  obtain ⟨ts2, hts2⟩ := mapM_ok_of_all tunnelTransform tunnelFieldsOK tunnelTransform_ok xs hall
  refine ⟨(kv.1, Yaml.seq ts2), ?_⟩
  rw [hx]
  show (xs.mapM tunnelTransform >>= fun ts2 => Except.ok (kv.1, Yaml.seq ts2)) = _
  rw [hts2]
  rfl

theorem optSat_cases (o : Option Yaml) (p : Yaml → Bool) (h : optSat o p = true) :
    ∃ v, o = some v ∧ p v = true := by
  cases o with
  | none => simp [optSat] at h
  | some v => exact ⟨v, rfl, h⟩

theorem except_bind_ok {ε α β : Type} (a : α) (f : α → Except ε β) :
    (Except.ok a : Except ε α) >>= f = f a := rfl

theorem isOk_exists {α : Type} (e : Except String α) (h : e.isOk = true) :
    ∃ v, e = .ok v := by
  cases e with
  | ok v => exact ⟨v, rfl⟩
  | error er => simp [Except.isOk, Except.toBool] at h

theorem convert_core_ok (d : Yaml) (hs : mapper_fields_present d) :
    ∃ vars, convert_core d = .ok vars := by
  obtain ⟨h1, h2, h3, h4, h5, h6, h7, h8, h9, h10, h11, h12, h13, h14, h15, h16,
          h17, h18, h19, h20, h21, h22, h23, h24, h25⟩ := hs
  obtain ⟨v1, -, hp1⟩ := walkPath_pyPath d _ h1
  obtain ⟨v2, -, hp2⟩ := walkPath_pyPath d _ h2
  obtain ⟨v3, -, hp3⟩ := walkPath_pyPath d _ h3
  obtain ⟨v4, -, hp4⟩ := walkPath_pyPath d _ h4
  obtain ⟨v5, -, hp5⟩ := walkPath_pyPath d _ h5
  obtain ⟨v6, -, hp6⟩ := walkPath_pyPath d _ h6
  obtain ⟨v7, -, hp7⟩ := walkPath_pyPath d _ h7
  obtain ⟨v8, -, hp8⟩ := walkPath_pyPath d _ h8
  obtain ⟨v9, -, hp9⟩ := walkPath_pyPath d _ h9
  obtain ⟨v10, -, hp10⟩ := walkPath_pyPath d _ h10
  obtain ⟨v11, -, hp11⟩ := walkPath_pyPath d _ h11
  obtain ⟨v12, -, hp12⟩ := walkPath_pyPath d _ h12
  obtain ⟨v13, -, hp13⟩ := walkPath_pyPath d _ h13
  obtain ⟨v14, -, hp14⟩ := walkPath_pyPath d _ h14
  obtain ⟨v15, -, hp15⟩ := walkPath_pyPath d _ h15
  obtain ⟨v16, -, hp16⟩ := walkPath_pyPath d _ h16
  obtain ⟨v17, -, hp17⟩ := walkPath_pyPath d _ h17
  obtain ⟨v18, -, hp18⟩ := walkPath_pyPath d _ h18
  obtain ⟨v23, -, hp23⟩ := walkPath_pyPath d _ h23
  obtain ⟨defsV, hdefsPG, -⟩ := optSat_cases _ _ h19
  have hp19 := pathGet_pyPath _ _ _ hdefsPG
  obtain ⟨dmV, hdmPG, -⟩ := optSat_cases _ _ h20
  have hp20 := pathGet_pyPath _ _ _ hdmPG
  obtain ⟨ovV, hovPG, hovP⟩ := optSat_cases _ _ h21
  obtain ⟨ovList, hovEq, hovAll⟩ := seqAll_cases _ _ hovP
  subst hovEq
  have hp21 := pathGet_pyPath _ _ _ hovPG
  obtain ⟨defnOverlay, hOv⟩ := mapM_ok_of_all overlayTransform overlayFieldsOK
    overlayTransform_ok ovList hovAll
  obtain ⟨l3V, hl3PG, hl3P⟩ := optSat_cases _ _ h22
  obtain ⟨l3List, hl3Eq, hl3All⟩ := seqAll_cases _ _ hl3P
  subst hl3Eq
  have hp22 := pathGet_pyPath _ _ _ hl3PG
  obtain ⟨defnL3out, hL3⟩ := mapM_ok_of_all l3Transform l3ConnFieldsOK
    l3Transform_ok l3List hl3All
  obtain ⟨nacV, hnacPG, hnacP⟩ := optSat_cases _ _ h24
  obtain ⟨nacList, hnacEq, hnacAll⟩ := seqAll_cases _ _ hnacP
  subst hnacEq
  have hp24 := pathGet_pyPath _ _ _ hnacPG
  obtain ⟨defnNacIot, hNac⟩ := mapM_ok_of_all nacTransform nacFieldsOK
    nacTransform_ok nacList hnacAll
  obtain ⟨ipsV, hipsPG, hipsP⟩ := optSat_cases _ _ h25
  obtain ⟨ipsKvs, hipsEq, hipsAll⟩ := mapValsAll_cases _ _ hipsP
  subst hipsEq
  have hp25 := pathGet_pyPath _ _ _ hipsPG
  obtain ⟨defnIpsec, hIps⟩ := mapM_ok_of_all
    (fun kv : YKey × Yaml => do
      let ts ← pyIterate kv.2
      let ts2 ← ts.mapM tunnelTransform
      Except.ok (kv.1, Yaml.seq ts2))
    (fun kv => (fun ts => seqAll ts tunnelFieldsOK) kv.2)
    ipsecEntry_ok ipsKvs hipsAll
  have hItOv : pyIterate (Yaml.seq ovList) = .ok ovList := rfl
  have hItL3 : pyIterate (Yaml.seq l3List) = .ok l3List := rfl
  have hItNac : pyIterate (Yaml.seq nacList) = .ok nacList := rfl
  have hok : (convert_core d).isOk = true := by
    unfold convert_core
    simp only [hp1, hp2, hp3, hp4, hp5, hp6, hp7, hp8, hp9, hp10, hp11, hp12, hp13,
      hp14, hp15, hp16, hp17, hp18, hp19, hp20, hp21, hp22, hp23, hp24, hp25,
      except_bind_ok, hItOv, hItL3, hItNac, hOv, hL3, hNac, hIps]
    rfl
  exact isOk_exists _ hok

theorem except_bind_ok_inv {ε α β : Type} (e : Except ε α) (f : α → Except ε β) (b : β)
    (h : (e >>= f) = .ok b) : ∃ a, e = .ok a ∧ f a = .ok b := by
  cases e with
  | error er => exact absurd h (by intro hc; cases hc)
  | ok a => exact ⟨a, rfl, h⟩

theorem convert_core_props (d : Yaml) (vars : List (String × Yaml))
    (h : convert_core d = .ok vars) :
    vars.map Prod.fst = ["FABRIC_BGP_ASN", "FABRIC_UNDERLAY", "FABRIC_IPSEC_UNDERLAY",
      "L2VNIOFFSET", "L3VNIOFFSET", "FABRIC_RP_ADDR", "FABRIC_RP_SCOPES",
      "ENTERPRISE_RP_ADDR", "ENTERPRISE_RP_SCOPES", "DEFN_NODE_ROLES",
      "DEFN_LOOP_UNDERLAY", "DEFN_LOOP_IPSEC", "DEFN_LOOP_MCLUSTER", "DEFN_LOOP_OVERLAY",
      "DEFN_LOOP_NAME", "DEFN_VRF", "DEFN_VRF_TO_NODE", "DEFN_OVERLAY", "DEFN_L3OUT",
      "DEFN_L3OUT_AGGREGATES", "DEFN_NAC_IOT", "DEFN_IPSEC"] ∧
    (∀ v, List.lookup "DEFN_VRF" vars = some v ↔ pyPath d ["vrfs", "definitions"] = .ok v) ∧
    (∀ v, List.lookup "DEFN_VRF_TO_NODE" vars = some v ↔
      pyPath d ["vrfs", "device_mappings"] = .ok v) := by
  unfold convert_core at h
  obtain ⟨bgp, e1, h⟩ := except_bind_ok_inv _ _ _ h
  obtain ⟨und, e2, h⟩ := except_bind_ok_inv _ _ _ h
  obtain ⟨ipu, e3, h⟩ := except_bind_ok_inv _ _ _ h
  obtain ⟨l2o, e4, h⟩ := except_bind_ok_inv _ _ _ h
  obtain ⟨l3o, e5, h⟩ := except_bind_ok_inv _ _ _ h
  obtain ⟨fra, e6, h⟩ := except_bind_ok_inv _ _ _ h
  obtain ⟨frs, e7, h⟩ := except_bind_ok_inv _ _ _ h
  obtain ⟨era, e8, h⟩ := except_bind_ok_inv _ _ _ h
  obtain ⟨ers, e9, h⟩ := except_bind_ok_inv _ _ _ h
  obtain ⟨rsp, e10, h⟩ := except_bind_ok_inv _ _ _ h
  obtain ⟨rrr, e11, h⟩ := except_bind_ok_inv _ _ _ h
  obtain ⟨rcl, e12, h⟩ := except_bind_ok_inv _ _ _ h
  obtain ⟨rbd, e13, h⟩ := except_bind_ok_inv _ _ _ h
  obtain ⟨lu, e14, h⟩ := except_bind_ok_inv _ _ _ h
  obtain ⟨li, e15, h⟩ := except_bind_ok_inv _ _ _ h
  obtain ⟨lm, e16, h⟩ := except_bind_ok_inv _ _ _ h
  obtain ⟨lo, e17, h⟩ := except_bind_ok_inv _ _ _ h
  obtain ⟨ln, e18, h⟩ := except_bind_ok_inv _ _ _ h
  obtain ⟨dv, e19, h⟩ := except_bind_ok_inv _ _ _ h
  obtain ⟨dm, e20, h⟩ := except_bind_ok_inv _ _ _ h
  obtain ⟨ovRaw, e21, h⟩ := except_bind_ok_inv _ _ _ h
  obtain ⟨ovItems, e22, h⟩ := except_bind_ok_inv _ _ _ h
  obtain ⟨defnOverlay, e23, h⟩ := except_bind_ok_inv _ _ _ h
  obtain ⟨l3Raw, e24, h⟩ := except_bind_ok_inv _ _ _ h
  obtain ⟨l3Items, e25, h⟩ := except_bind_ok_inv _ _ _ h
  obtain ⟨defnL3out, e26, h⟩ := except_bind_ok_inv _ _ _ h
  obtain ⟨agg, e27, h⟩ := except_bind_ok_inv _ _ _ h
  obtain ⟨nacRaw, e28, h⟩ := except_bind_ok_inv _ _ _ h
  obtain ⟨nacItems, e29, h⟩ := except_bind_ok_inv _ _ _ h
  obtain ⟨defnNacIot, e30, h⟩ := except_bind_ok_inv _ _ _ h
  obtain ⟨ipsRaw, e31, h⟩ := except_bind_ok_inv _ _ _ h
  obtain ⟨ipsKvs, e32, h⟩ := except_bind_ok_inv _ _ _ h
  obtain ⟨defnIpsec, e33, h⟩ := except_bind_ok_inv _ _ _ h
  have h2 : Except.ok (ε := String)
      [("FABRIC_BGP_ASN", bgp), ("FABRIC_UNDERLAY", und), ("FABRIC_IPSEC_UNDERLAY", ipu),
       ("L2VNIOFFSET", l2o), ("L3VNIOFFSET", l3o), ("FABRIC_RP_ADDR", fra),
       ("FABRIC_RP_SCOPES", frs), ("ENTERPRISE_RP_ADDR", era), ("ENTERPRISE_RP_SCOPES", ers),
       ("DEFN_NODE_ROLES", Yaml.map [(.s "SPINE", rsp), (.s "RR", rrr),
                                     (.s "CLIENT", rcl), (.s "BORDER", rbd)]),
       ("DEFN_LOOP_UNDERLAY", lu), ("DEFN_LOOP_IPSEC", li), ("DEFN_LOOP_MCLUSTER", lm),
       ("DEFN_LOOP_OVERLAY", lo), ("DEFN_LOOP_NAME", ln), ("DEFN_VRF", dv),
       ("DEFN_VRF_TO_NODE", dm), ("DEFN_OVERLAY", Yaml.seq defnOverlay),
       ("DEFN_L3OUT", Yaml.seq defnL3out), ("DEFN_L3OUT_AGGREGATES", agg),
       ("DEFN_NAC_IOT", Yaml.seq defnNacIot), ("DEFN_IPSEC", Yaml.map defnIpsec)]
      = .ok vars := h
  cases h2
  refine ⟨rfl, ?_, ?_⟩
  · intro v
    constructor
    · intro hv
      have hv2 : some dv = some v := hv
      cases hv2
      exact e19
    · intro hv
      rw [e19] at hv
      cases hv
      rfl
  · intro v
    constructor
    · intro hv
      have hv2 : some dm = some v := hv
      cases hv2
      exact e20
    · intro hv
      rw [e20] at hv
      cases hv
      rfl

theorem lookup_append_assoc {β : Type} (k : String) (l1 l2 : List (String × β)) :
    List.lookup k (l1 ++ l2) =
      (match List.lookup k l1 with
       | some v => some v
       | none => List.lookup k l2) := by
  induction l1 with
  | nil => rfl
  | cons kv rest ih =>
      obtain ⟨a, b⟩ := kv
      simp only [List.cons_append, List.lookup]
      cases hab : (k == a) with
      | true => rfl
      | false => exact ih

theorem lookup_none_of_keys_ne {β : Type} (k : String) :
    ∀ l : List (String × β), (∀ p ∈ l, p.1 ≠ k) → List.lookup k l = none := by
  intro l
  induction l with
  | nil => intro _; rfl
  | cons kv rest ih =>
      intro h
      obtain ⟨a, b⟩ := kv
      have hne : a ≠ k := h (a, b) (List.mem_cons_self _ _)
      simp only [List.lookup]
      have hb : (k == a) = false := by
        rw [beq_eq_false_iff_ne]
        exact fun hh => hne hh.symm
      rw [hb]
      exact ih (fun p hp => h p (List.mem_cons_of_mem _ hp))

theorem convert_core_lookup_none (d : Yaml) (vars : List (String × Yaml)) (k : String)
    (h : convert_core d = .ok vars)
    (hk : k ∉ ["FABRIC_BGP_ASN", "FABRIC_UNDERLAY", "FABRIC_IPSEC_UNDERLAY",
      "L2VNIOFFSET", "L3VNIOFFSET", "FABRIC_RP_ADDR", "FABRIC_RP_SCOPES",
      "ENTERPRISE_RP_ADDR", "ENTERPRISE_RP_SCOPES", "DEFN_NODE_ROLES",
      "DEFN_LOOP_UNDERLAY", "DEFN_LOOP_IPSEC", "DEFN_LOOP_MCLUSTER", "DEFN_LOOP_OVERLAY",
      "DEFN_LOOP_NAME", "DEFN_VRF", "DEFN_VRF_TO_NODE", "DEFN_OVERLAY", "DEFN_L3OUT",
      "DEFN_L3OUT_AGGREGATES", "DEFN_NAC_IOT", "DEFN_IPSEC"]) :
    List.lookup k vars = none := by
  obtain ⟨hkeys, -, -⟩ := convert_core_props d vars h
  refine lookup_none_of_keys_ne k vars (fun p hp => ?_)
  intro heq
  apply hk
  rw [← heq, ← hkeys]
  exact List.mem_map_of_mem Prod.fst hp

/-- The Mapper never defines a variable named template_file: its output keys
are the fixed set written by `convert_to_template_vars` plus, in the
device-specific case, `__device` and `vrf_list`. -/
theorem convert_lookup_template_file_none (d : Yaml) (hn : Option String)
    (vars : List (String × Yaml)) (h : convert_to_template_vars d hn = .ok vars) :
    List.lookup "template_file" vars = none := by
  unfold convert_to_template_vars at h
  obtain ⟨core, hcore, h⟩ := except_bind_ok_inv _ _ _ h
  have hcnone : List.lookup "template_file" core = none :=
    convert_core_lookup_none d core _ hcore (by decide)
  cases hn with
  | none =>
      have h2 : Except.ok (ε := String) core = .ok vars := h
      cases h2
      exact hcnone
  | some hname =>
      unfold device_augment device_augment_tail at h
      obtain ⟨dvtn, hdvtn, h⟩ := except_bind_ok_inv _ _ _ h
      obtain ⟨ismem, hmem, h⟩ := except_bind_ok_inv _ _ _ h
      have hv1 : List.lookup "template_file"
          (core ++ [("__device", Yaml.map [(.s "hostname", .str hname)])]) = none := by
        rw [lookup_append_assoc, hcnone]
        rfl
      cases ismem with
      | false =>
          have h2 : Except.ok (ε := String)
              (core ++ [("__device", Yaml.map [(.s "hostname", .str hname)])]) = .ok vars := h
          cases h2
          exact hv1
      | true =>
          obtain ⟨ids, hids, h⟩ := except_bind_ok_inv _ _ _ h
          obtain ⟨defv, hdefv, h⟩ := except_bind_ok_inv _ _ _ h
          obtain ⟨defsL, hdefsL, h⟩ := except_bind_ok_inv _ _ _ h
          obtain ⟨names, hnames, h⟩ := except_bind_ok_inv _ _ _ h
          have h2 : Except.ok (ε := String)
              (core ++ [("__device", Yaml.map [(.s "hostname", .str hname)])]
                ++ [("vrf_list", Yaml.seq names)]) = .ok vars := h
          cases h2
          rw [lookup_append_assoc, hv1]
          rfl

/-- Evaluation of `get_device_role` over a roles table whose spine, border
and leaf entries (when present) are lists: the result is the
precedence-ordered membership test. -/
theorem get_device_role_eval (d : Yaml) (rk : List (YKey × Yaml)) (deviceHostname : String)
    (hroles : pyPath d ["devices", "roles"] = .ok (.map rk))
    (hS : ∀ v, yamlLookup rk (.s "spine") = some v → isSeqB v = true)
    (hB : ∀ v, yamlLookup rk (.s "border") = some v → isSeqB v = true)
    (hL : ∀ v, yamlLookup rk (.s "leaf") = some v → isSeqB v = true) :
    get_device_role d deviceHostname = .ok
      (if roleListHas rk "spine" deviceHostname then "spine"
       else if roleListHas rk "border" deviceHostname then "border"
       else if roleListHas rk "leaf" deviceHostname then "leaf" else "unknown") := by
  have seqOf : ∀ (key : String),
      (∀ v, yamlLookup rk (.s key) = some v → isSeqB v = true) →
      (∃ res : List Yaml,
        pyDictGet (Yaml.map rk) (.s key) (.seq []) = .ok (.seq res) ∧
        roleListHas rk key deviceHostname =
          res.any (fun y => Yaml.beq y (.str deviceHostname))) := by
    intro key hk
    cases hlk : yamlLookup rk (.s key) with
    | none =>
        refine ⟨[], ?_, ?_⟩
        · simp [pyDictGet, hlk]
        · simp [roleListHas, hlk]
    | some v =>
        have hseq := hk v hlk
        cases v <;> simp only [isSeqB] at hseq <;> try cases hseq
        rename_i xs
        refine ⟨xs, ?_, ?_⟩
        · simp [pyDictGet, hlk]
        · simp [roleListHas, hlk]
  obtain ⟨spineL, hspG, hspH⟩ := seqOf "spine" hS
  obtain ⟨borderL, hbdG, hbdH⟩ := seqOf "border" hB
  obtain ⟨leafL, hlfG, hlfH⟩ := seqOf "leaf" hL
  unfold get_device_role
  have hpi : ∀ (xs : List Yaml), pyIn (Yaml.str deviceHostname) (Yaml.seq xs) =
      .ok (xs.any (fun y => Yaml.beq y (.str deviceHostname))) := fun xs => rfl
  simp only [hroles, except_bind_ok, hspG, hbdG, hlfG, hspH, hbdH, hlfH, hpi]
  cases h1 : spineL.any (fun y => Yaml.beq y (Yaml.str deviceHostname)) with
  | true => simp
  | false =>
      cases h2 : borderL.any (fun y => Yaml.beq y (Yaml.str deviceHostname)) with
      | true => simp
      | false =>
          cases h3 : leafL.any (fun y => Yaml.beq y (Yaml.str deviceHostname)) with
          | true => simp
          | false => simp

theorem mem_pySetInsert_inv (acc : List Yaml) (x y : Yaml) (h : y ∈ pySetInsert acc x) :
    y ∈ acc ∨ y = x := by
  unfold pySetInsert at h
  split at h
  · exact Or.inl h
  · rcases List.mem_append.mp h with h | h
    · exact Or.inl h
    · rcases List.mem_singleton.mp h with h; exact Or.inr h

theorem mem_foldl_pySetInsert_inv (xs : List Yaml) : ∀ (acc : List Yaml) (y : Yaml),
    y ∈ xs.foldl pySetInsert acc → y ∈ acc ∨ y ∈ xs := by
  induction xs with
  | nil => intro acc y h; exact Or.inl (by simpa using h)
  | cons x0 xs ih =>
      intro acc y h
      rcases ih _ y h with h | h
      · rcases mem_pySetInsert_inv _ _ _ h with h | h
        · exact Or.inl h
        · exact Or.inr (h ▸ List.mem_cons_self _ _)
      · exact Or.inr (List.mem_cons_of_mem _ h)

theorem mem_pySetOfList_inv (xs : List Yaml) (y : Yaml) (h : y ∈ pySetOfList xs) : y ∈ xs := by
  rcases mem_foldl_pySetInsert_inv xs [] y h with h | h
  · cases h
  · exact h

theorem mapM_mem_rev {α β : Type} (f : α → Except String β) :
    ∀ (xs : List α) (ys : List β), xs.mapM f = .ok ys →
      ∀ y ∈ ys, ∃ x, x ∈ xs ∧ f x = .ok y := by
  intro xs
  induction xs with
  | nil =>
      intro ys h y hy
      have h2 : Except.ok (ε := String) ([] : List β) = .ok ys := h
      cases h2
      cases hy
  | cons x0 xs ih =>
      intro ys h y hy
      rw [List.mapM_cons] at h
      obtain ⟨b, hb, h⟩ := except_bind_ok_inv _ _ _ h
      obtain ⟨ys0, hys0, h⟩ := except_bind_ok_inv _ _ _ h
      have h2 : Except.ok (ε := String) (b :: ys0) = .ok ys := h
      cases h2
      rcases List.mem_cons.mp hy with hy | hy
      · exact ⟨x0, List.mem_cons_self _ _, hy ▸ hb⟩
      · obtain ⟨x, hx1, hx2⟩ := ih ys0 hys0 y hy
        exact ⟨x, List.mem_cons_of_mem _ hx1, hx2⟩

theorem mem_insertSorted (x a : String) : ∀ l : List String,
    (a ∈ insertSorted x l ↔ a = x ∨ a ∈ l) := by
  intro l
  induction l with
  | nil => simp [insertSorted]
  | cons y ys ih =>
      simp only [insertSorted]
      split
      · simp [List.mem_cons]
      · simp only [List.mem_cons, ih]
        constructor
        · rintro (h | h) 
          · exact Or.inr (Or.inl h)
          · rcases h with h | h
            · exact Or.inl h
            · exact Or.inr (Or.inr h)
        · rintro (h | h)
          · exact Or.inr (Or.inl h)
          · rcases h with h | h
            · exact Or.inl h
            · exact Or.inr (Or.inr h)

theorem mem_sortStrings (l : List String) (a : String) : a ∈ sortStrings l ↔ a ∈ l := by
  induction l with
  | nil => simp [sortStrings]
  | cons x xs ih =>
      show a ∈ insertSorted x (sortStrings xs) ↔ _
      rw [mem_insertSorted]
      simp [ih]

theorem map_fst_pair {γ : Type} (l : List String) (g : String → γ) :
    (l.map (fun t => (t, g t))).map Prod.fst = l := by
  induction l with
  | nil => rfl
  | cons x xs ih => simp only [List.map_cons, ih]

theorem generate_all_configs_eq (w : RenderWorld) (d : Yaml) (deviceHostname role : String)
    (hrole : get_device_role d deviceHostname = .ok role) :
    generate_all_configs w d deviceHostname = .ok
      ((definition_templates ++ fabric_templates_for role).map (fun t =>
        (t, match generate_config w d deviceHostname t with
            | .ok c => c
            | .error e => "Error generating " ++ t ++ ": " ++ e))) := by
  unfold generate_all_configs
  rw [hrole]
  rfl

theorem get_device_role_cases (d : Yaml) (deviceHostname role : String)
    (h : get_device_role d deviceHostname = .ok role) :
    role = "spine" ∨ role = "border" ∨ role = "leaf" ∨ role = "unknown" := by
  unfold get_device_role at h
  obtain ⟨roles, h1, h⟩ := except_bind_ok_inv _ _ _ h
  obtain ⟨spineL, h2, h⟩ := except_bind_ok_inv _ _ _ h
  obtain ⟨inS, h3, h⟩ := except_bind_ok_inv _ _ _ h
  cases inS with
  | true =>
      have h4 : Except.ok (ε := String) "spine" = .ok role := h
      cases h4
      exact Or.inl rfl
  | false =>
      obtain ⟨borderL, h4, h⟩ := except_bind_ok_inv _ _ _ h
      obtain ⟨inB, h5, h⟩ := except_bind_ok_inv _ _ _ h
      cases inB with
      | true =>
          have h6 : Except.ok (ε := String) "border" = .ok role := h
          cases h6
          exact Or.inr (Or.inl rfl)
      | false =>
          obtain ⟨leafL, h6, h⟩ := except_bind_ok_inv _ _ _ h
          obtain ⟨inL, h7, h⟩ := except_bind_ok_inv _ _ _ h
          cases inL with
          | true =>
              have h8 : Except.ok (ε := String) "leaf" = .ok role := h
              cases h8
              exact Or.inr (Or.inr (Or.inl rfl))
          | false =>
              have h8 : Except.ok (ε := String) "unknown" = .ok role := h
              cases h8
              exact Or.inr (Or.inr (Or.inr rfl))

/-- C5: role resolution returns exactly one of spine, border, leaf, unknown
by fixed-precedence membership — spine if the hostname is in the spine list,
else border, else leaf, else unknown; a hostname in both the spine and leaf
lists resolves to spine (the precedence equivalences below force this), the
route_reflector and client entries never affect the result (final conjunct:
any document whose roles table agrees on just the spine, border and leaf
keys resolves identically), and a hostname absent from all lists yields
unknown rather than an error. -/
theorem c5_role_resolution_precedence (d : Yaml) (rk : List (YKey × Yaml))
    (deviceHostname : String)
    (hroles : pyPath d ["devices", "roles"] = .ok (.map rk))
    (hS : ∀ v, yamlLookup rk (.s "spine") = some v → isSeqB v = true)
    (hB : ∀ v, yamlLookup rk (.s "border") = some v → isSeqB v = true)
    (hL : ∀ v, yamlLookup rk (.s "leaf") = some v → isSeqB v = true) :
    ∃ role, get_device_role d deviceHostname = .ok role ∧
      (role = "spine" ∨ role = "border" ∨ role = "leaf" ∨ role = "unknown") ∧
      (role = "spine" ↔ roleListHas rk "spine" deviceHostname = true) ∧
      (role = "border" ↔ (roleListHas rk "spine" deviceHostname = false ∧
        roleListHas rk "border" deviceHostname = true)) ∧
      (role = "leaf" ↔ (roleListHas rk "spine" deviceHostname = false ∧
        roleListHas rk "border" deviceHostname = false ∧
        roleListHas rk "leaf" deviceHostname = true)) ∧
      (role = "unknown" ↔ (roleListHas rk "spine" deviceHostname = false ∧
        roleListHas rk "border" deviceHostname = false ∧
        roleListHas rk "leaf" deviceHostname = false)) ∧
      (∀ (d2 : Yaml) (rk2 : List (YKey × Yaml)),
        pyPath d2 ["devices", "roles"] = .ok (.map rk2) →
        yamlLookup rk2 (.s "spine") = yamlLookup rk (.s "spine") →
        yamlLookup rk2 (.s "border") = yamlLookup rk (.s "border") →
        yamlLookup rk2 (.s "leaf") = yamlLookup rk (.s "leaf") →
        get_device_role d2 deviceHostname = .ok role) := by
  have heval := get_device_role_eval d rk deviceHostname hroles hS hB hL
  refine ⟨_, heval, ?_, ?_, ?_, ?_, ?_, ?_⟩
  · exact get_device_role_cases d deviceHostname _ heval
  · cases h1 : roleListHas rk "spine" deviceHostname <;>
      cases h2 : roleListHas rk "border" deviceHostname <;>
        cases h3 : roleListHas rk "leaf" deviceHostname <;> simp
  · cases h1 : roleListHas rk "spine" deviceHostname <;>
      cases h2 : roleListHas rk "border" deviceHostname <;>
        cases h3 : roleListHas rk "leaf" deviceHostname <;> simp
  · cases h1 : roleListHas rk "spine" deviceHostname <;>
      cases h2 : roleListHas rk "border" deviceHostname <;>
        cases h3 : roleListHas rk "leaf" deviceHostname <;> simp
  · cases h1 : roleListHas rk "spine" deviceHostname <;>
      cases h2 : roleListHas rk "border" deviceHostname <;>
        cases h3 : roleListHas rk "leaf" deviceHostname <;> simp
  · intro d2 rk2 hr2 hsp2 hbd2 hlf2
    have hS2 : ∀ v, yamlLookup rk2 (.s "spine") = some v → isSeqB v = true := by
      rw [hsp2]; exact hS
    have hB2 : ∀ v, yamlLookup rk2 (.s "border") = some v → isSeqB v = true := by
      rw [hbd2]; exact hB
    have hL2 : ∀ v, yamlLookup rk2 (.s "leaf") = some v → isSeqB v = true := by
      rw [hlf2]; exact hL
    have heval2 := get_device_role_eval d2 rk2 deviceHostname hr2 hS2 hB2 hL2
    rw [heval2]
    have e1 : roleListHas rk2 "spine" deviceHostname = roleListHas rk "spine" deviceHostname := by
      simp [roleListHas, hsp2]
    have e2 : roleListHas rk2 "border" deviceHostname = roleListHas rk "border" deviceHostname := by
      simp [roleListHas, hbd2]
    have e3 : roleListHas rk2 "leaf" deviceHostname = roleListHas rk "leaf" deviceHostname := by
      simp [roleListHas, hlf2]
    rw [e1, e2, e3]

/-- Witness for C5 at a concrete document whose hostname x sits in the
spine, leaf, route_reflector and client lists at once: the hypotheses hold
and the resolved role is spine. -/
theorem c5_witness :
    pyPath dualRoleDoc ["devices", "roles"] = .ok (.map
      [(.s "spine", .seq [.str "x"]),
       (.s "leaf", .seq [.str "x"]),
       (.s "route_reflector", .seq [.str "x"]),
       (.s "client", .seq [.str "x"])]) ∧
    (∃ role, get_device_role dualRoleDoc "x" = .ok role ∧
      (role = "spine" ∨ role = "border" ∨ role = "leaf" ∨ role = "unknown") ∧
      (role = "spine" ↔ roleListHas
        [(.s "spine", .seq [.str "x"]),
         (.s "leaf", .seq [.str "x"]),
         (.s "route_reflector", .seq [.str "x"]),
         (.s "client", .seq [.str "x"])] "spine" "x" = true) ∧
      (role = "border" ↔ (roleListHas
        [(.s "spine", .seq [.str "x"]),
         (.s "leaf", .seq [.str "x"]),
         (.s "route_reflector", .seq [.str "x"]),
         (.s "client", .seq [.str "x"])] "spine" "x" = false ∧
        roleListHas
        [(.s "spine", .seq [.str "x"]),
         (.s "leaf", .seq [.str "x"]),
         (.s "route_reflector", .seq [.str "x"]),
         (.s "client", .seq [.str "x"])] "border" "x" = true)) ∧
      (role = "leaf" ↔ (roleListHas
        [(.s "spine", .seq [.str "x"]),
         (.s "leaf", .seq [.str "x"]),
         (.s "route_reflector", .seq [.str "x"]),
         (.s "client", .seq [.str "x"])] "spine" "x" = false ∧
        roleListHas
        [(.s "spine", .seq [.str "x"]),
         (.s "leaf", .seq [.str "x"]),
         (.s "route_reflector", .seq [.str "x"]),
         (.s "client", .seq [.str "x"])] "border" "x" = false ∧
        roleListHas
        [(.s "spine", .seq [.str "x"]),
         (.s "leaf", .seq [.str "x"]),
         (.s "route_reflector", .seq [.str "x"]),
         (.s "client", .seq [.str "x"])] "leaf" "x" = true)) ∧
      (role = "unknown" ↔ (roleListHas
        [(.s "spine", .seq [.str "x"]),
         (.s "leaf", .seq [.str "x"]),
         (.s "route_reflector", .seq [.str "x"]),
         (.s "client", .seq [.str "x"])] "spine" "x" = false ∧
        roleListHas
        [(.s "spine", .seq [.str "x"]),
         (.s "leaf", .seq [.str "x"]),
         (.s "route_reflector", .seq [.str "x"]),
         (.s "client", .seq [.str "x"])] "border" "x" = false ∧
        roleListHas
        [(.s "spine", .seq [.str "x"]),
         (.s "leaf", .seq [.str "x"]),
         (.s "route_reflector", .seq [.str "x"]),
         (.s "client", .seq [.str "x"])] "leaf" "x" = false)) ∧
      (∀ (d2 : Yaml) (rk2 : List (YKey × Yaml)),
        pyPath d2 ["devices", "roles"] = .ok (.map rk2) →
        yamlLookup rk2 (.s "spine") = yamlLookup
          [(.s "spine", .seq [.str "x"]),
           (.s "leaf", .seq [.str "x"]),
           (.s "route_reflector", .seq [.str "x"]),
           (.s "client", .seq [.str "x"])] (.s "spine") →
        yamlLookup rk2 (.s "border") = yamlLookup
          [(.s "spine", .seq [.str "x"]),
           (.s "leaf", .seq [.str "x"]),
           (.s "route_reflector", .seq [.str "x"]),
           (.s "client", .seq [.str "x"])] (.s "border") →
        yamlLookup rk2 (.s "leaf") = yamlLookup
          [(.s "spine", .seq [.str "x"]),
           (.s "leaf", .seq [.str "x"]),
           (.s "route_reflector", .seq [.str "x"]),
           (.s "client", .seq [.str "x"])] (.s "leaf") →
        get_device_role d2 "x" = .ok role)) ∧
    get_device_role dualRoleDoc "x" = .ok "spine" :=
  ⟨rfl,
   c5_role_resolution_precedence dualRoleDoc
     [(.s "spine", .seq [.str "x"]),
      (.s "leaf", .seq [.str "x"]),
      (.s "route_reflector", .seq [.str "x"]),
      (.s "client", .seq [.str "x"])] "x" rfl
     (fun v hv => by cases hv; rfl)
     (fun v hv => by cases hv)
     (fun v hv => by cases hv; rfl),
   rfl⟩

/-- C4: the fabric templates selected in an all-templates run are a fixed
function of the resolved role: a spine gets exactly FABRIC-VRF,
FABRIC-LOOPBACKS, FABRIC-NVE, FABRIC-MCAST, FABRIC-EVPN; a leaf gets the
spine set plus FABRIC-OVERLAY and FABRIC-NAC-IOT and not FABRIC-IPSEC; a
border gets the spine set plus FABRIC-OVERLAY and FABRIC-IPSEC and not
FABRIC-NAC-IOT; an unknown-role device gets no fabric templates. -/
theorem c4_fabric_template_selection (w : RenderWorld) (d : Yaml)
    (deviceHostname role : String) (cfgs : List (String × String))
    (hrole : get_device_role d deviceHostname = .ok role)
    (hall : generate_all_configs w d deviceHostname = .ok cfgs) :
    (role = "spine" → (cfgs.map Prod.fst).filter (fun t => strStarts t "FABRIC-") =
      ["FABRIC-VRF", "FABRIC-LOOPBACKS", "FABRIC-NVE", "FABRIC-MCAST", "FABRIC-EVPN"]) ∧
    (role = "leaf" → ((cfgs.map Prod.fst).filter (fun t => strStarts t "FABRIC-") =
      ["FABRIC-VRF", "FABRIC-LOOPBACKS", "FABRIC-NVE", "FABRIC-MCAST", "FABRIC-EVPN",
       "FABRIC-OVERLAY", "FABRIC-NAC-IOT"] ∧
      "FABRIC-IPSEC" ∉ cfgs.map Prod.fst)) ∧
    (role = "border" → ((cfgs.map Prod.fst).filter (fun t => strStarts t "FABRIC-") =
      ["FABRIC-VRF", "FABRIC-LOOPBACKS", "FABRIC-NVE", "FABRIC-MCAST", "FABRIC-EVPN",
       "FABRIC-OVERLAY", "FABRIC-IPSEC"] ∧
      "FABRIC-NAC-IOT" ∉ cfgs.map Prod.fst)) ∧
    (role = "unknown" → (cfgs.map Prod.fst).filter (fun t => strStarts t "FABRIC-") = []) := by
  have heq := generate_all_configs_eq w d deviceHostname role hrole
  rw [hall] at heq
  cases heq
  rw [map_fst_pair]
  refine ⟨?_, ?_, ?_, ?_⟩
  · intro hr; subst hr; rfl
  · intro hr; subst hr; exact ⟨rfl, by decide⟩
  · intro hr; subst hr; exact ⟨rfl, by decide⟩
  · intro hr; subst hr; rfl

/-- Witness for C4 at the leaf of the sample document. -/
theorem c4_witness :
    get_device_role sampleDoc "l1" = .ok "leaf" ∧
    (∃ cfgs, generate_all_configs trivialWorld sampleDoc "l1" = .ok cfgs ∧
      (("leaf" : String) = "leaf" →
        ((cfgs.map Prod.fst).filter (fun t => strStarts t "FABRIC-") =
          ["FABRIC-VRF", "FABRIC-LOOPBACKS", "FABRIC-NVE", "FABRIC-MCAST", "FABRIC-EVPN",
           "FABRIC-OVERLAY", "FABRIC-NAC-IOT"] ∧
         "FABRIC-IPSEC" ∉ cfgs.map Prod.fst))) := by
  refine ⟨rfl, ?_⟩
  cases hall : generate_all_configs trivialWorld sampleDoc "l1" with
  | error e => exact absurd hall (by rw [generate_all_configs_eq trivialWorld sampleDoc "l1" "leaf" rfl]; intro hc; cases hc)
  | ok cfgs =>
      exact ⟨cfgs, rfl,
        fun _ => ((c4_fabric_template_selection trivialWorld sampleDoc "l1" "leaf" cfgs
          rfl hall).2.1) rfl⟩

/-- C3 counterexample: for the leaf of the sample document (a known device)
the all-templates run contains nine definition templates, not seventeen. -/
theorem c3_counterexample :
    get_device_role sampleDoc "l1" = .ok "leaf" ∧
    (generate_all_configs trivialWorld sampleDoc "l1").map
      (fun cfgs => ((cfgs.map Prod.fst).filter (fun t => strStarts t "DEFN-")).length) =
      .ok 9 ∧
    (generate_all_configs trivialWorld sampleDoc "l1").map
      (fun cfgs => ((cfgs.map Prod.fst).filter (fun t => strStarts t "DEFN-")).length) ≠
      .ok 17 := by
  have h9 : (generate_all_configs trivialWorld sampleDoc "l1").map
      (fun cfgs => ((cfgs.map Prod.fst).filter (fun t => strStarts t "DEFN-")).length) =
      .ok 9 := rfl
  exact ⟨rfl, h9, by simp [h9]⟩

/-- C3 amended: generating all templates for a device whose resolved role is
spine, leaf or border includes exactly nine definition templates (the DEFN-
entries of available_templates), independent of the role. -/
theorem c3_nine_definition_templates (w : RenderWorld) (d : Yaml)
    (deviceHostname role : String) (cfgs : List (String × String))
    (hrole : get_device_role d deviceHostname = .ok role)
    (hknown : role = "spine" ∨ role = "leaf" ∨ role = "border")
    (hall : generate_all_configs w d deviceHostname = .ok cfgs) :
    (cfgs.map Prod.fst).filter (fun t => strStarts t "DEFN-") =
      ["DEFN-VRF", "DEFN-ROLES", "DEFN-LOOPBACKS", "DEFN-OVERLAY", "DEFN-L3OUT",
       "DEFN-MCAST", "DEFN-VNIOFFSETS", "DEFN-NAC-IOT", "DEFN-IPSEC"] ∧
    ((cfgs.map Prod.fst).filter (fun t => strStarts t "DEFN-")).length = 9 := by
  have heq := generate_all_configs_eq w d deviceHostname role hrole
  rw [hall] at heq
  cases heq
  rw [map_fst_pair]
  rcases hknown with hr | hr | hr <;> subst hr <;> exact ⟨rfl, rfl⟩

/-- Witness for C3 at the spine of the sample document. -/
theorem c3_witness :
    get_device_role sampleDoc "s1" = .ok "spine" ∧
    (("spine" : String) = "spine" ∨ ("spine" : String) = "leaf" ∨
      ("spine" : String) = "border") ∧
    (∃ cfgs, generate_all_configs trivialWorld sampleDoc "s1" = .ok cfgs ∧
      (cfgs.map Prod.fst).filter (fun t => strStarts t "DEFN-") =
        ["DEFN-VRF", "DEFN-ROLES", "DEFN-LOOPBACKS", "DEFN-OVERLAY", "DEFN-L3OUT",
         "DEFN-MCAST", "DEFN-VNIOFFSETS", "DEFN-NAC-IOT", "DEFN-IPSEC"] ∧
      ((cfgs.map Prod.fst).filter (fun t => strStarts t "DEFN-")).length = 9) := by
  refine ⟨rfl, Or.inl rfl, ?_⟩
  cases hall : generate_all_configs trivialWorld sampleDoc "s1" with
  | error e => exact absurd hall (by rw [generate_all_configs_eq trivialWorld sampleDoc "s1" "spine" rfl]; intro hc; cases hc)
  | ok cfgs =>
      exact ⟨cfgs, rfl,
        c3_nine_definition_templates trivialWorld sampleDoc "s1" "spine" cfgs
          rfl (Or.inl rfl) hall⟩

theorem get_device_list_eval (d : Yaml) (rk : List (YKey × Yaml))
    (roleElems : List (List Yaml)) (strs : List String)
    (hroles : pyPath d ["devices", "roles"] = .ok (.map rk))
    (hiter : (rk.map (fun kv => kv.2)).mapM pyIterate = .ok roleElems)
    (hstrs : (pySetOfList roleElems.flatten).mapM (fun v => match v with
        | Yaml.str sv => Except.ok sv
        | _ => Except.error "TypeError: str comparison unsupported") = .ok strs) :
    get_device_list d = .ok (sortStrings strs) := by
  unfold get_device_list
  simp only [hroles, except_bind_ok, hiter, hstrs]

/-- C10: a hostname listed only under route_reflector or client still passes
the device-existence check (the device list is the union of all role lists),
resolves to role unknown, and an all-templates run yields exactly the nine
DEFN configurations and no fabric configuration. -/
theorem c10_informational_role_device (w : RenderWorld) (d : Yaml)
    (rk : List (YKey × Yaml)) (deviceHostname : String)
    (hroles : pyPath d ["devices", "roles"] = .ok (.map rk))
    (hvals : ∀ kv ∈ rk, ∃ xs, kv.2 = Yaml.seq xs ∧ ∀ x ∈ xs, ∃ sv, x = Yaml.str sv)
    (hmem : ∃ r, (r = "route_reflector" ∨ r = "client") ∧ ∃ xs,
        yamlLookup rk (.s r) = some (Yaml.seq xs) ∧ Yaml.str deviceHostname ∈ xs)
    (hnS : roleListHas rk "spine" deviceHostname = false)
    (hnB : roleListHas rk "border" deviceHostname = false)
    (hnL : roleListHas rk "leaf" deviceHostname = false) :
    (∃ devs, get_device_list d = .ok devs ∧ devs.contains deviceHostname = true) ∧
    get_device_role d deviceHostname = .ok "unknown" ∧
    (∃ cfgs, generate_all_configs w d deviceHostname = .ok cfgs ∧
      cfgs.map Prod.fst = ["DEFN-VRF", "DEFN-ROLES", "DEFN-LOOPBACKS", "DEFN-OVERLAY",
        "DEFN-L3OUT", "DEFN-MCAST", "DEFN-VNIOFFSETS", "DEFN-NAC-IOT", "DEFN-IPSEC"] ∧
      ∀ t ∈ cfgs.map Prod.fst, strStarts t "DEFN-" = true) := by
  -- every role list value iterates to its elements
  have hseqvals : ∀ v ∈ rk.map (fun kv => kv.2), isSeqB v = true := by
    intro v hv
    obtain ⟨kv, hkv, hkv2⟩ := List.mem_map.mp hv
    obtain ⟨xs, hxs, -⟩ := hvals kv hkv
    rw [← hkv2, hxs]
    rfl
  obtain ⟨roleElems, hiter⟩ := mapM_ok_of_all pyIterate isSeqB
    (fun v hv => by cases v <;> simp only [isSeqB] at hv <;> try cases hv
                    exact ⟨_, rfl⟩)
    (rk.map (fun kv => kv.2)) (List.all_eq_true.mpr hseqvals)
  -- every collected device is a string
  have hstrall : ∀ x ∈ pySetOfList roleElems.flatten,
      (match x with | Yaml.str _ => true | _ => false) = true := by
    intro x hx
    have hx2 := mem_pySetOfList_inv _ _ hx
    obtain ⟨l, hl, hxl⟩ := List.mem_flatten.mp hx2
    obtain ⟨rv, hrv, hrvIter⟩ := mapM_mem_rev pyIterate _ _ hiter l hl
    obtain ⟨kv, hkv, hkv2⟩ := List.mem_map.mp hrv
    obtain ⟨xs, hxs, hxstrs⟩ := hvals kv hkv
    rw [← hkv2, hxs] at hrvIter
    have hli : Except.ok (ε := String) xs = .ok l := hrvIter
    cases hli
    obtain ⟨sv, hsv⟩ := hxstrs x hxl
    rw [hsv]
  obtain ⟨strs, hstrs⟩ := mapM_ok_of_all
    (fun v => match v with
      | Yaml.str sv => Except.ok sv
      | _ => Except.error "TypeError: str comparison unsupported")
    (fun v => match v with | Yaml.str _ => true | _ => false)
    (fun v hv => by
      cases v <;> simp at hv
      exact ⟨_, rfl⟩)
    (pySetOfList roleElems.flatten) (List.all_eq_true.mpr hstrall)
  have hdevlist := get_device_list_eval d rk roleElems strs hroles hiter hstrs
  -- membership of the hostname
  obtain ⟨r, -, xs, hlk, hxmem⟩ := hmem
  have hseqmem : Yaml.seq xs ∈ rk.map (fun kv => kv.2) := by
    have := yamlLookup_mem rk _ _ hlk
    exact List.mem_map.mpr ⟨_, this, rfl⟩
  obtain ⟨l, hlmem, hlIter⟩ := mapM_mem_ok pyIterate _ _ hiter _ hseqmem
  have hli : Except.ok (ε := String) xs = .ok l := hlIter
  cases hli
  have hflat : Yaml.str deviceHostname ∈ roleElems.flatten :=
    List.mem_flatten.mpr ⟨xs, hlmem, hxmem⟩
  have hset : Yaml.str deviceHostname ∈ pySetOfList roleElems.flatten :=
    mem_pySetOfList _ _ hflat
  obtain ⟨s, hsmem, hsex⟩ := mapM_mem_ok _ _ _ hstrs _ hset
  have hseq : Except.ok (ε := String) deviceHostname = .ok s := hsex
  cases hseq
  have hmemdevs : deviceHostname ∈ sortStrings strs := (mem_sortStrings strs _).mpr hsmem
  -- role resolution
  have hS : ∀ v, yamlLookup rk (.s "spine") = some v → isSeqB v = true := by
    intro v hv
    exact hseqvals v (List.mem_map.mpr ⟨_, yamlLookup_mem rk _ _ hv, rfl⟩)
  have hB : ∀ v, yamlLookup rk (.s "border") = some v → isSeqB v = true := by
    intro v hv
    exact hseqvals v (List.mem_map.mpr ⟨_, yamlLookup_mem rk _ _ hv, rfl⟩)
  have hL : ∀ v, yamlLookup rk (.s "leaf") = some v → isSeqB v = true := by
    intro v hv
    exact hseqvals v (List.mem_map.mpr ⟨_, yamlLookup_mem rk _ _ hv, rfl⟩)
  have hrole := get_device_role_eval d rk deviceHostname hroles hS hB hL
  rw [hnS, hnB, hnL] at hrole
  simp only [Bool.false_eq_true, if_false] at hrole
  refine ⟨⟨sortStrings strs, hdevlist, ?_⟩, hrole, ?_⟩
  · exact List.elem_eq_true_of_mem hmemdevs
  · refine ⟨_, generate_all_configs_eq w d deviceHostname "unknown" hrole, ?_, ?_⟩
    · rw [map_fst_pair]
      rfl
    · rw [map_fst_pair]
      intro t ht
      fin_cases ht <;> rfl

/-- Witness for C10: the hostname rr1 of the sample document appears only in
the route_reflector list; it is in the device list, resolves to unknown and
receives exactly the nine definition configurations. -/
theorem c10_witness :
    pyPath sampleDoc ["devices", "roles"] = .ok (.map
      [(.s "spine", .seq [.str "s1"]),
       (.s "border", .seq [.str "b1"]),
       (.s "leaf", .seq [.str "l1"]),
       (.s "route_reflector", .seq [.str "rr1"]),
       (.s "client", .seq [])]) ∧
    roleListHas
      [(.s "spine", .seq [.str "s1"]),
       (.s "border", .seq [.str "b1"]),
       (.s "leaf", .seq [.str "l1"]),
       (.s "route_reflector", .seq [.str "rr1"]),
       (.s "client", .seq [])] "spine" "rr1" = false ∧
    ((∃ devs, get_device_list sampleDoc = .ok devs ∧ devs.contains "rr1" = true) ∧
     get_device_role sampleDoc "rr1" = .ok "unknown" ∧
     (∃ cfgs, generate_all_configs trivialWorld sampleDoc "rr1" = .ok cfgs ∧
       cfgs.map Prod.fst = ["DEFN-VRF", "DEFN-ROLES", "DEFN-LOOPBACKS", "DEFN-OVERLAY",
         "DEFN-L3OUT", "DEFN-MCAST", "DEFN-VNIOFFSETS", "DEFN-NAC-IOT", "DEFN-IPSEC"] ∧
       ∀ t ∈ cfgs.map Prod.fst, strStarts t "DEFN-" = true)) :=
  ⟨rfl, rfl,
   c10_informational_role_device trivialWorld sampleDoc
     [(.s "spine", .seq [.str "s1"]),
      (.s "border", .seq [.str "b1"]),
      (.s "leaf", .seq [.str "l1"]),
      (.s "route_reflector", .seq [.str "rr1"]),
      (.s "client", .seq [])] "rr1" rfl
     (by
       intro kv hkv
       fin_cases hkv
       · exact ⟨[.str "s1"], rfl, by
           intro x hx; fin_cases hx; exact ⟨"s1", rfl⟩⟩
       · exact ⟨[.str "b1"], rfl, by
           intro x hx; fin_cases hx; exact ⟨"b1", rfl⟩⟩
       · exact ⟨[.str "l1"], rfl, by
           intro x hx; fin_cases hx; exact ⟨"l1", rfl⟩⟩
       · exact ⟨[.str "rr1"], rfl, by
           intro x hx; fin_cases hx; exact ⟨"rr1", rfl⟩⟩
       · exact ⟨[], rfl, by intro x hx; cases hx⟩)
     ⟨"route_reflector", Or.inl rfl, [.str "rr1"], rfl, List.mem_singleton.mpr rfl⟩
     rfl rfl rfl⟩

/-- C7: during a bulk all-templates run, a rendering failure of one template
is caught and replaced by the inline error string in that template slot
while every successfully rendered template keeps its output, and the run as
a whole returns a configs mapping; the same failing template requested
explicitly makes the invocation exit with code 1. -/
theorem c7_bulk_vs_single_failure (w : RenderWorld) (d : Yaml)
    (deviceHostname role t0 e : String) (devs : List String)
    (hrole : get_device_role d deviceHostname = .ok role)
    (ht0 : t0 ∈ definition_templates ++ fabric_templates_for role)
    (hfail : generate_config w d deviceHostname t0 = .error e)
    (hdl : get_device_list d = .ok devs)
    (hdev : devs.contains deviceHostname = true) :
    (∃ cfgs, generate_all_configs w d deviceHostname = .ok cfgs ∧
      (t0, "Error generating " ++ t0 ++ ": " ++ e) ∈ cfgs ∧
      (∀ t c, t ∈ definition_templates ++ fabric_templates_for role →
        generate_config w d deviceHostname t = .ok c → (t, c) ∈ cfgs)) ∧
    main_single_template w d deviceHostname t0 = .error 1 := by
  constructor
  · refine ⟨_, generate_all_configs_eq w d deviceHostname role hrole, ?_, ?_⟩
    · refine List.mem_map.mpr ⟨t0, ht0, ?_⟩
      rw [hfail]
    · intro t c ht hok
      refine List.mem_map.mpr ⟨t, ht, ?_⟩
      rw [hok]
  · unfold main_single_template
    rw [hdl]
    simp only [hdev, if_true]
    rw [hfail]

/-- Witness for C7: in a world where exactly DEFN-VRF.j2 fails to render,
the bulk run for the sample leaf still succeeds with the inline error slot,
and the single-template invocation of DEFN-VRF exits 1. -/
theorem c7_witness :
    get_device_role sampleDoc "l1" = .ok "leaf" ∧
    generate_config oneFailWorld sampleDoc "l1" "DEFN-VRF" =
      .error "Error rendering template DEFN-VRF: boom" ∧
    ((∃ cfgs, generate_all_configs oneFailWorld sampleDoc "l1" = .ok cfgs ∧
      ("DEFN-VRF", "Error generating " ++ "DEFN-VRF" ++ ": " ++
        "Error rendering template DEFN-VRF: boom") ∈ cfgs ∧
      (∀ t c, t ∈ definition_templates ++ fabric_templates_for "leaf" →
        generate_config oneFailWorld sampleDoc "l1" t = .ok c → (t, c) ∈ cfgs)) ∧
     main_single_template oneFailWorld sampleDoc "l1" "DEFN-VRF" = .error 1) :=
  ⟨rfl, rfl,
   c7_bulk_vs_single_failure oneFailWorld sampleDoc "l1" "leaf" "DEFN-VRF"
     "Error rendering template DEFN-VRF: boom" ["b1", "l1", "rr1", "s1"]
     rfl (by decide) rfl rfl rfl⟩

theorem vrfList_foldlM_spec (c : Yaml) :
    ∀ (defs : List Yaml) (acc names : List Yaml),
      defs.foldlM (vrfListStep c) acc = .ok names →
      ((∀ x ∈ acc, x ∈ names) ∧
       (∀ m ∈ defs, ∀ idv, pyGetItem m (.s "id") = .ok idv →
          pyIn idv c = .ok true →
          ∃ nv, pyGetItem m (.s "name") = .ok nv ∧ nv ∈ names) ∧
       (∀ nv ∈ names, nv ∈ acc ∨ ∃ m, m ∈ defs ∧ ∃ idv,
          pyGetItem m (.s "id") = .ok idv ∧ pyIn idv c = .ok true ∧
          pyGetItem m (.s "name") = .ok nv)) := by
  intro defs
  induction defs with
  | nil =>
      intro acc names h
      have h2 : Except.ok (ε := String) acc = .ok names := h
      cases h2
      exact ⟨fun x hx => hx, fun m hm => absurd hm (List.not_mem_nil m),
             fun nv hnv => Or.inl hnv⟩
  | cons m0 rest ih =>
      intro acc names h
      rw [List.foldlM_cons] at h
      obtain ⟨acc1, hstep, h⟩ := except_bind_ok_inv _ _ _ h
      unfold vrfListStep at hstep
      obtain ⟨idv0, hid0, hstep⟩ := except_bind_ok_inv _ _ _ hstep
      obtain ⟨b0, hb0, hstep⟩ := except_bind_ok_inv _ _ _ hstep
      obtain ⟨hA, hB, hC⟩ := ih acc1 names h
      cases b0 with
      | true =>
          obtain ⟨nv0, hnv0, hstep⟩ := except_bind_ok_inv _ _ _ hstep
          have hacc1 : Except.ok (ε := String) (acc ++ [nv0]) = .ok acc1 := hstep
          cases hacc1
          refine ⟨?_, ?_, ?_⟩
          · intro x hx
            exact hA x (List.mem_append.mpr (Or.inl hx))
          · intro m hm idv hid hin
            rcases List.mem_cons.mp hm with hm | hm
            · subst hm
              rw [hid0] at hid
              cases hid
              exact ⟨nv0, hnv0,
                hA nv0 (List.mem_append.mpr (Or.inr (List.mem_singleton.mpr rfl)))⟩
            · exact hB m hm idv hid hin
          · intro nv hnv
            rcases hC nv hnv with hin | ⟨m, hm, rest2⟩
            · rcases List.mem_append.mp hin with hin | hin
              · exact Or.inl hin
              · have heq := List.mem_singleton.mp hin
                subst heq
                exact Or.inr ⟨m0, List.mem_cons_self _ _, idv0, hid0, hb0, hnv0⟩
            · exact Or.inr ⟨m, List.mem_cons_of_mem _ hm, rest2⟩
      | false =>
          have hacc1 : Except.ok (ε := String) acc = .ok acc1 := hstep
          cases hacc1
          refine ⟨hA, ?_, ?_⟩
          · intro m hm idv hid hin
            rcases List.mem_cons.mp hm with hm | hm
            · subst hm
              rw [hid0] at hid
              cases hid
              rw [hb0] at hin
              injection hin with hbt
              exact Bool.noConfusion hbt
            · exact hB m hm idv hid hin
          · intro nv hnv
            rcases hC nv hnv with hin | ⟨m, hm, rest2⟩
            · exact Or.inl hin
            · exact Or.inr ⟨m, List.mem_cons_of_mem _ hm, rest2⟩

/-- C6: when the Mapper is given a hostname that is a key of the
device-to-VRF mapping, the produced vrf_list contains the name of every VRF
definition whose id is a member of that device id list, and every entry of
vrf_list comes from such a matching definition — ids with no matching
definition contribute nothing and raise nothing. -/
theorem c6_vrf_list_translation (d : Yaml) (deviceHostname : String)
    (vars : List (String × Yaml)) (dvtnKvs : List (YKey × Yaml)) (ids : Yaml)
    (defs : List Yaml)
    (hconv : convert_to_template_vars d (some deviceHostname) = .ok vars)
    (hdvtn : pyPath d ["vrfs", "device_mappings"] = .ok (.map dvtnKvs))
    (hkey : yamlLookup dvtnKvs (.s deviceHostname) = some ids)
    (hdefs : pyPath d ["vrfs", "definitions"] = .ok (.seq defs)) :
    ∃ names, List.lookup "vrf_list" vars = some (.seq names) ∧
      (∀ m ∈ defs, ∀ idv, pyGetItem m (.s "id") = .ok idv →
        pyIn idv ids = .ok true →
        ∃ nv, pyGetItem m (.s "name") = .ok nv ∧ nv ∈ names) ∧
      (∀ nv ∈ names, ∃ m, m ∈ defs ∧ ∃ idv,
        pyGetItem m (.s "id") = .ok idv ∧ pyIn idv ids = .ok true ∧
        pyGetItem m (.s "name") = .ok nv) := by
  unfold convert_to_template_vars at hconv
  obtain ⟨core, hcore, hconv⟩ := except_bind_ok_inv _ _ _ hconv
  obtain ⟨-, hlkDefs, hlkDvtn⟩ := convert_core_props d core hcore
  have hcoreDvtn : List.lookup "DEFN_VRF_TO_NODE" core = some (.map dvtnKvs) :=
    (hlkDvtn _).mpr hdvtn
  have hcoreDefs : List.lookup "DEFN_VRF" core = some (.seq defs) :=
    (hlkDefs _).mpr hdefs
  unfold device_augment device_augment_tail at hconv
  obtain ⟨dvtn, hdvtnStep, hconv⟩ := except_bind_ok_inv _ _ _ hconv
  rw [lookup_append_assoc, hcoreDvtn] at hdvtnStep
  have hdvtnEq : Except.ok (ε := String) (Yaml.map dvtnKvs) = .ok dvtn := hdvtnStep
  cases hdvtnEq
  obtain ⟨ismem, hmem, hconv⟩ := except_bind_ok_inv _ _ _ hconv
  have hmemTrue : ismem = true := by
    have hcomp : pyIn (.str deviceHostname) (.map dvtnKvs) =
        .ok (dvtnKvs.any (fun kv => ykeyMatches kv.1 (.str deviceHostname))) := rfl
    rw [hcomp] at hmem
    have hany : dvtnKvs.any (fun kv => ykeyMatches kv.1 (.str deviceHostname)) = true := by
      refine List.any_eq_true.mpr ⟨(.s deviceHostname, ids), yamlLookup_mem _ _ _ hkey, ?_⟩
      simp [ykeyMatches]
    rw [hany] at hmem
    injection hmem with hmem2
    exact hmem2.symm
  subst hmemTrue
  obtain ⟨ids2, hids2, hconv⟩ := except_bind_ok_inv _ _ _ hconv
  have hidsComp : pyGetItem (Yaml.map dvtnKvs) (.s deviceHostname) = .ok ids := by
    simp [pyGetItem, hkey]
  rw [hidsComp] at hids2
  cases hids2
  obtain ⟨defv, hdefv, hconv⟩ := except_bind_ok_inv _ _ _ hconv
  rw [lookup_append_assoc, hcoreDefs] at hdefv
  have hdefvEq : Except.ok (ε := String) (Yaml.seq defs) = .ok defv := hdefv
  cases hdefvEq
  obtain ⟨defsL, hdefsL, hconv⟩ := except_bind_ok_inv _ _ _ hconv
  have hdefsLEq : Except.ok (ε := String) defs = .ok defsL := hdefsL
  cases hdefsLEq
  obtain ⟨names, hnames, hconv⟩ := except_bind_ok_inv _ _ _ hconv
  have hvarsEq : Except.ok (ε := String)
      ((core ++ [("__device", Yaml.map [(.s "hostname", .str deviceHostname)])])
        ++ [("vrf_list", Yaml.seq names)]) = .ok vars := hconv
  cases hvarsEq
  obtain ⟨-, hWanted, hConverse⟩ := vrfList_foldlM_spec ids defs [] names hnames
  refine ⟨names, ?_, hWanted, ?_⟩
  · rw [lookup_append_assoc, lookup_append_assoc]
    rw [convert_core_lookup_none d core "vrf_list" hcore (by decide)]
    rfl
  · intro nv hnv
    rcases hConverse nv hnv with hin | h
    · cases hin
    · exact h

/-- Witness for C6 on the skewed document: the leaf is mapped to VRF ids 10
and 99, only id 10 has a definition, and the produced vrf_list is exactly
the one-element list containing the name of VRF 10. -/
theorem c6_witness :
    convert_to_template_vars skewDoc (some "l1") = .ok skewVars ∧
    pyPath skewDoc ["vrfs", "device_mappings"] =
      .ok (.map [(.s "l1", .seq [.int 10, .int 99])]) ∧
    List.lookup "vrf_list" skewVars = some (.seq [.str "VRF_A"]) ∧
    (∃ names, List.lookup "vrf_list" skewVars = some (.seq names) ∧
      (∀ m ∈ [Yaml.map [(.s "id", .int 10), (.s "name", .str "VRF_A")],
              Yaml.map [(.s "id", .int 20), (.s "name", .str "VRF_B")]],
        ∀ idv, pyGetItem m (.s "id") = .ok idv →
        pyIn idv (.seq [.int 10, .int 99]) = .ok true →
        ∃ nv, pyGetItem m (.s "name") = .ok nv ∧ nv ∈ names) ∧
      (∀ nv ∈ names, ∃ m, m ∈ [Yaml.map [(.s "id", .int 10), (.s "name", .str "VRF_A")],
              Yaml.map [(.s "id", .int 20), (.s "name", .str "VRF_B")]] ∧ ∃ idv,
        pyGetItem m (.s "id") = .ok idv ∧ pyIn idv (.seq [.int 10, .int 99]) = .ok true ∧
        pyGetItem m (.s "name") = .ok nv)) :=
  ⟨rfl, rfl, rfl,
   c6_vrf_list_translation skewDoc "l1" skewVars
     [(.s "l1", .seq [.int 10, .int 99])] (.seq [.int 10, .int 99])
     [Yaml.map [(.s "id", .int 10), (.s "name", .str "VRF_A")],
      Yaml.map [(.s "id", .int 20), (.s "name", .str "VRF_B")]]
     rfl rfl rfl rfl⟩

theorem evalPiece_no_calls (env : JinjaEnvM) (ctx : List (String × Yaml))
    (p : JinjaPiece) (r : String × List (String × String))
    (hctx : List.lookup "template_file" ctx = none)
    (h : evalPiece env ctx p = .ok r) : r.2 = [] := by
  cases p with
  | includeFrag name =>
      unfold evalPiece at h
      cases hl : env.loader with
      | none => rw [hl] at h; exact absurd h (by intro hc; cases hc)
      | some load =>
          rw [hl] at h
          obtain ⟨t, ht, h⟩ := except_bind_ok_inv _ _ _ h
          have h2 : Except.ok (ε := String) (t, ([] : List (String × String))) = .ok r := h
          cases h2
          rfl
  | rawText t =>
      have h2 : Except.ok (ε := String) (t, ([] : List (String × String))) = .ok r := h
      cases h2
      rfl
  | fabricConditional host =>
      unfold evalPiece at h
      rw [hctx] at h
      have h2 : Except.ok (ε := String) ("", ([] : List (String × String))) = .ok r := h
      cases h2
      rfl

theorem evalPieces_no_calls (env : JinjaEnvM) (ctx : List (String × Yaml))
    (hctx : List.lookup "template_file" ctx = none) :
    ∀ (ps : List JinjaPiece) (out : String × List (String × String)),
      evalPieces env ctx ps = .ok out → out.2 = [] := by
  intro ps
  induction ps with
  | nil =>
      intro out h
      have h2 : Except.ok (ε := String) ("", ([] : List (String × String))) = .ok out := h
      cases h2
      rfl
  | cons p ps ih =>
      intro out h
      unfold evalPieces at h
      obtain ⟨r, hr, h⟩ := except_bind_ok_inv _ _ _ h
      obtain ⟨rest, hrest, h⟩ := except_bind_ok_inv _ _ _ h
      have h2 : Except.ok (ε := String) (r.1 ++ rest.1, r.2 ++ rest.2) = .ok out := h
      cases h2
      rw [evalPiece_no_calls env ctx p r hctx hr, ih rest hrest]
      rfl

/-- C2: the composed fabric-template document never reaches the macro-call
branch.  For any template variables the Mapper can produce (which never bind
the Jinja name template_file): rendering the wrapper in the loaderless
standalone environment of jinja2.Template fails at its first include
directive; under any environment whatsoever, a successful wrapper
evaluation records no build invocation (the conditional compares the
Undefined template_file, which is never equal to a string); and therefore
the full _render_fabric_template path — composed attempt, then fallback to
bare rendering — never invokes vrfDefinitionBuild or overlayBuild. -/
theorem c2_macro_branch_unreachable (d : Yaml) (deviceHostname : String)
    (vars : List (String × Yaml))
    (hconv : convert_to_template_vars d (some deviceHostname) = .ok vars) :
    (∀ content : String, evalPieces { loader := none } vars
        (wrapperPieces content deviceHostname) =
      .error "TypeError: no loader for this environment specified") ∧
    (∀ (env : JinjaEnvM) (content : String) (out : String × List (String × String)),
      evalPieces env vars (wrapperPieces content deviceHostname) = .ok out →
        out.2 = []) ∧
    (∀ (w : RenderWorld) (templateFile : String) (r : String × List (String × String)),
      render_fabric_template w templateFile vars deviceHostname = .ok r → r.2 = []) := by
  have hctx := convert_lookup_template_file_none d (some deviceHostname) vars hconv
  refine ⟨?_, ?_, ?_⟩
  · intro content
    rfl
  · intro env content out h
    exact evalPieces_no_calls env vars hctx _ out h
  · intro w templateFile r h
    unfold render_fabric_template at h
    rcases hcomp : (do
        let content ← w.fsRead templateFile
        evalPieces { loader := none } vars (wrapperPieces content deviceHostname)) with
      ⟨e⟩ | ⟨rr⟩
    · rw [hcomp] at h
      cases hfb : w.envRender templateFile vars with
      | error e2 => rw [hfb] at h; exact absurd h (by intro hc; cases hc)
      | ok t =>
          rw [hfb] at h
          have h2 : Except.ok (ε := String) (t, ([] : List (String × String))) = .ok r := h
          cases h2
          rfl
    · rw [hcomp] at h
      have h2 : Except.ok (ε := String) rr = .ok r := h
      cases h2
      obtain ⟨content, hct, hev⟩ := except_bind_ok_inv _ _ _ hcomp
      exact evalPieces_no_calls _ vars hctx _ _ hev

/-- Witness for C2: at the sample document and its leaf, the standalone
wrapper render fails with the loader error, and the full fabric render path
returns the fallback text with no build invocation recorded. -/
theorem c2_witness :
    convert_to_template_vars sampleDoc (some "l1") = .ok sampleVars ∧
    evalPieces { loader := none } sampleVars (wrapperPieces "BODY" "l1") =
      .error "TypeError: no loader for this environment specified" ∧
    (∃ r, render_fabric_template trivialWorld "FABRIC-VRF.j2" sampleVars "l1" = .ok r ∧
      r.1 = "R:FABRIC-VRF.j2" ∧ r.2 = []) := by
  have hthm := c2_macro_branch_unreachable sampleDoc "l1" sampleVars rfl
  refine ⟨rfl, hthm.1 "BODY", ?_⟩
  have hr : render_fabric_template trivialWorld "FABRIC-VRF.j2" sampleVars "l1" =
      .ok ("R:FABRIC-VRF.j2", []) := rfl
  exact ⟨("R:FABRIC-VRF.j2", []), hr, rfl,
    hthm.2.2 trivialWorld "FABRIC-VRF.j2" ("R:FABRIC-VRF.j2", []) hr⟩

theorem fsWrite_lookup_self (fs : FileStore) (n c : String) :
    List.lookup n (fsWrite fs n c) = some c := by
  unfold fsWrite
  simp [List.lookup]

theorem lookup_filter_ne (m n : String) (hne : m ≠ n) :
    ∀ fs : FileStore,
      List.lookup m (fs.filter (fun p => p.1 != n)) = List.lookup m fs := by
  intro fs
  induction fs with
  | nil => rfl
  | cons kv rest ih =>
      obtain ⟨a, b⟩ := kv
      by_cases han : a = n
      · subst han
        have h1 : ((a, b).1 != a) = false := by simp
        have h2 : (m == a) = false := by
          rw [beq_eq_false_iff_ne]; exact hne
        simp only [List.filter, h1, List.lookup, h2]
        exact ih
      · have h1 : ((a, b).1 != n) = true := by simp [han]
        simp only [List.filter, h1, List.lookup]
        cases hma : (m == a) with
        | true => rfl
        | false => exact ih

theorem fsWrite_lookup_other (fs : FileStore) (n m c : String) (hne : m ≠ n) :
    List.lookup m (fsWrite fs n c) = List.lookup m fs := by
  unfold fsWrite
  have hb : (m == n) = false := by rw [beq_eq_false_iff_ne]; exact hne
  simp only [List.lookup, hb]
  exact lookup_filter_ne m n hne fs

theorem foldl_fsWrite_preserve (nameF contentF : String × String → String) :
    ∀ (L : List (String × String)) (fs : FileStore) (m : String),
      (∀ tc ∈ L, nameF tc ≠ m) →
      List.lookup m (L.foldl (fun acc tc2 => fsWrite acc (nameF tc2) (contentF tc2)) fs) =
        List.lookup m fs := by
  intro L
  induction L with
  | nil => intro fs m _; rfl
  | cons x L ih =>
      intro fs m h
      have hx : nameF x ≠ m := h x (List.mem_cons_self _ _)
      calc List.lookup m ((x :: L).foldl
            (fun acc tc2 => fsWrite acc (nameF tc2) (contentF tc2)) fs)
          = List.lookup m (L.foldl (fun acc tc2 => fsWrite acc (nameF tc2) (contentF tc2))
              (fsWrite fs (nameF x) (contentF x))) := rfl
        _ = List.lookup m (fsWrite fs (nameF x) (contentF x)) :=
            ih _ m (fun tc htc => h tc (List.mem_cons_of_mem _ htc))
        _ = List.lookup m fs := fsWrite_lookup_other fs (nameF x) m (contentF x)
              (fun he => hx he.symm)

theorem foldl_fsWrite_lookup (nameF contentF : String × String → String) :
    ∀ (L : List (String × String)) (fs : FileStore),
      List.Pairwise (fun a b => nameF a ≠ nameF b) L →
      ∀ tc ∈ L, List.lookup (nameF tc)
        (L.foldl (fun acc tc2 => fsWrite acc (nameF tc2) (contentF tc2)) fs) =
          some (contentF tc) := by
  intro L
  induction L with
  | nil => intro fs _ tc htc; cases htc
  | cons x L ih =>
      intro fs hpw tc htc
      have hpw2 := List.pairwise_cons.mp hpw
      rcases List.mem_cons.mp htc with htc | htc
      · subst htc
        calc List.lookup (nameF tc) ((tc :: L).foldl
              (fun acc tc2 => fsWrite acc (nameF tc2) (contentF tc2)) fs)
            = List.lookup (nameF tc) (L.foldl
                (fun acc tc2 => fsWrite acc (nameF tc2) (contentF tc2))
                (fsWrite fs (nameF tc) (contentF tc))) := rfl
          _ = List.lookup (nameF tc) (fsWrite fs (nameF tc) (contentF tc)) :=
              foldl_fsWrite_preserve nameF contentF L _ _
                (fun tc2 htc2 => (hpw2.1 tc2 htc2).symm)
          _ = some (contentF tc) := fsWrite_lookup_self _ _ _
      · exact ih _ hpw2.2 tc htc

theorem string_data_inj (a b : String) (h : a.data = b.data) : a = b := by
  cases a; cases b; simp_all

theorem configFileName_inj (deviceHostname t1 t2 : String)
    (h : configFileName deviceHostname t1 = configFileName deviceHostname t2) :
    t1 = t2 := by
  unfold configFileName at h
  have hd := congrArg String.data h
  simp only [String.data_append] at hd
  have h2 := List.append_cancel_right hd
  have h3 := List.append_cancel_left h2
  exact string_data_inj _ _ h3

theorem save_device_configs_lookup (w : RenderWorld) (d : Yaml)
    (deviceHostname role : String) (fs fsOut : FileStore)
    (cfgs : List (String × String))
    (hrole : get_device_role d deviceHostname = .ok role)
    (hall : generate_all_configs w d deviceHostname = .ok cfgs)
    (hsave : save_device_configs w d deviceHostname fs = .ok fsOut) :
    ∀ tc ∈ cfgs, List.lookup (configFileName deviceHostname tc.1) fsOut =
      some (bulkFileContent tc.1 deviceHostname tc.2) := by
  unfold save_device_configs at hsave
  obtain ⟨cfgs2, hall2, hsave⟩ := except_bind_ok_inv _ _ _ hsave
  rw [hall] at hall2
  cases hall2
  have hfold : Except.ok (ε := String) (cfgs.foldl (fun acc tc =>
      fsWrite acc (configFileName deviceHostname tc.1)
        (bulkFileContent tc.1 deviceHostname tc.2)) fs) = .ok fsOut := hsave
  cases hfold
  -- template names are pairwise distinct for every resolvable role
  have hNodup : (definition_templates ++ fabric_templates_for role).Nodup := by
    rcases get_device_role_cases d deviceHostname role hrole with hr | hr | hr | hr <;>
      subst hr <;> decide
  have heq := generate_all_configs_eq w d deviceHostname role hrole
  rw [hall] at heq
  cases heq
  have hpw : List.Pairwise (fun a b : String × String =>
      (fun tc => configFileName deviceHostname tc.1) a ≠
      (fun tc => configFileName deviceHostname tc.1) b)
      ((definition_templates ++ fabric_templates_for role).map (fun t =>
        (t, match generate_config w d deviceHostname t with
            | .ok c => c
            | .error e => "Error generating " ++ t ++ ": " ++ e))) := by
    refine List.Pairwise.map _ ?_ hNodup
    intro a b hab
    simp only []
    intro hc
    exact hab (configFileName_inj deviceHostname a b hc)
  intro tc htc
  exact foldl_fsWrite_lookup (fun tc => configFileName deviceHostname tc.1)
    (fun tc => bulkFileContent tc.1 deviceHostname tc.2) _ fs hpw tc htc

/-- C9 counterexample: the single-template write path produces a file whose
header has three comment lines and does not state the generator identity, so
the claimed common 4-line header with generator identity is false for that
path.  The written content for device l1, template FABRIC-VRF and rendered
text R:FABRIC-VRF.j2 is shown in full. -/
theorem c9_counterexample :
    main_single_template_write trivialWorld sampleDoc "l1" "FABRIC-VRF" [] =
      .ok [("l1_FABRIC-VRF.cfg",
        "! Configuration generated from FABRIC-VRF template\n! Device: l1\n!\nR:FABRIC-VRF.j2")] ∧
    charsContain
      "! Configuration generated from FABRIC-VRF template\n! Device: l1\n!\nR:FABRIC-VRF.j2".data
      "Generated by BGP EVPN Config Generator".data = false ∧
    charsContain
      (bulkFileContent "FABRIC-VRF" "l1" "R:FABRIC-VRF.j2").data
      "Generated by BGP EVPN Config Generator".data = true := by
  refine ⟨rfl, ?_, ?_⟩ <;> decide

/-- C9 amended: every file the Writer produces is named
hostname_TEMPLATE.cfg and overwrites any existing file of that name; the
bulk path writes a four-line comment header stating the template name, the
hostname and the generator identity before the rendered text, while the
single-template path writes a three-line header (template name, hostname,
bare comment line) without the generator identity line. -/
theorem c9_file_naming_and_headers (w : RenderWorld) (d : Yaml)
    (deviceHostname role : String) (fs fsOut : FileStore)
    (cfgs : List (String × String))
    (hrole : get_device_role d deviceHostname = .ok role)
    (hall : generate_all_configs w d deviceHostname = .ok cfgs)
    (hsave : save_device_configs w d deviceHostname fs = .ok fsOut) :
    (∀ tc ∈ cfgs, List.lookup (deviceHostname ++ "_" ++ tc.1 ++ ".cfg") fsOut =
      some ("! Configuration generated from " ++ tc.1 ++ " template\n"
        ++ "! Device: " ++ deviceHostname ++ "\n"
        ++ "! Generated by BGP EVPN Config Generator\n"
        ++ "!\n" ++ tc.2)) ∧
    (∀ (t c : String) (devs : List String) (fs2 : FileStore),
      get_device_list d = .ok devs → devs.contains deviceHostname = true →
      generate_config w d deviceHostname t = .ok c →
      main_single_template_write w d deviceHostname t fs2 =
        .ok (fsWrite fs2 (deviceHostname ++ "_" ++ t ++ ".cfg")
          ("! Configuration generated from " ++ t ++ " template\n"
            ++ "! Device: " ++ deviceHostname ++ "\n"
            ++ "!\n" ++ c))) ∧
    (∀ (fs2 : FileStore) (n c : String), List.lookup n (fsWrite fs2 n c) = some c) := by
  refine ⟨?_, ?_, ?_⟩
  · exact save_device_configs_lookup w d deviceHostname role fs fsOut cfgs hrole hall hsave
  · intro t c devs fs2 hdl hdev hgc
    unfold main_single_template_write
    rw [hdl]
    simp only [hdev, if_true]
    rw [hgc]
    rfl
  · intro fs2 n c
    exact fsWrite_lookup_self fs2 n c

/-- Witness for C9 on the sample leaf with an always-successful renderer:
the saved store maps each produced configuration file name to its
four-line-headed content. -/
theorem c9_witness :
    get_device_role sampleDoc "l1" = .ok "leaf" ∧
    (∃ cfgs fsOut, generate_all_configs trivialWorld sampleDoc "l1" = .ok cfgs ∧
      save_device_configs trivialWorld sampleDoc "l1" [] = .ok fsOut ∧
      (∀ tc ∈ cfgs, List.lookup ("l1" ++ "_" ++ tc.1 ++ ".cfg") fsOut =
        some ("! Configuration generated from " ++ tc.1 ++ " template\n"
          ++ "! Device: " ++ "l1" ++ "\n"
          ++ "! Generated by BGP EVPN Config Generator\n"
          ++ "!\n" ++ tc.2)) ∧
      List.lookup "l1_FABRIC-VRF.cfg" fsOut =
        some ("! Configuration generated from FABRIC-VRF template\n! Device: l1\n! Generated by BGP EVPN Config Generator\n!\nR:FABRIC-VRF.j2")) := by
  obtain ⟨cfgs, hall⟩ := isOk_exists (generate_all_configs trivialWorld sampleDoc "l1") rfl
  obtain ⟨fsOut, hsave⟩ := isOk_exists (save_device_configs trivialWorld sampleDoc "l1" []) rfl
  have hthm := c9_file_naming_and_headers trivialWorld sampleDoc "l1" "leaf" [] fsOut cfgs
    rfl hall hsave
  refine ⟨rfl, cfgs, fsOut, hall, hsave, hthm.1, ?_⟩
  have hmem : ("FABRIC-VRF", "R:FABRIC-VRF.j2") ∈ cfgs := by
    have heq := generate_all_configs_eq trivialWorld sampleDoc "l1" "leaf" rfl
    rw [hall] at heq
    cases heq
    decide
  have := hthm.1 ("FABRIC-VRF", "R:FABRIC-VRF.j2") hmem
  exact this

/-- C8: the validator evaluates its checks without short-circuiting — on a
document whose VRF definitions carry a duplicated id and whose role lists
contain a hostname with no underlay loopback entry, the returned violation
list simultaneously contains the violation whose exact message is
"VRF IDs must be unique" and a missing-underlay-loopbacks violation naming
that hostname. -/
theorem c8_validator_reports_both (d : Yaml) (vs : List Violation)
    (defsRaw : Yaml) (defsL idsL l1 l2 l3 : List Yaml) (a : Yaml)
    (rolesKvs undKvs : List (YKey × Yaml)) (hname : String)
    (hval : validate_data_model d = .ok vs)
    (hdefs : pyPath d ["vrfs", "definitions"] = .ok defsRaw)
    (hiter : pyIterate defsRaw = .ok defsL)
    (hids : defsL.mapM (fun v => pyGetItem v (.s "id")) = .ok idsL)
    (hdup : idsL = l1 ++ a :: (l2 ++ a :: l3))
    (hroles : pyPath d ["devices", "roles"] = .ok (.map rolesKvs))
    (hund : pyPath d ["devices", "loopbacks", "underlay"] = .ok (.map undKvs))
    (hmem : ∃ kv, kv ∈ rolesKvs ∧ ∃ xs, kv.2 = Yaml.seq xs ∧ Yaml.str hname ∈ xs)
    (hnokey : ∀ kv ∈ undKvs, ykeyMatches kv.1 (.str hname) = false) :
    Violation.vrfIdsNotUnique ∈ vs ∧
    Violation.message .vrfIdsNotUnique = "VRF IDs must be unique" ∧
    (∃ ds, Violation.missingUnderlayLoopbacks ds ∈ vs ∧ Yaml.str hname ∈ ds) := by
  unfold validate_data_model at hval
  obtain ⟨validation, b1, hval⟩ := except_bind_ok_inv _ _ _ hval
  obtain ⟨reqRaw, b2, hval⟩ := except_bind_ok_inv _ _ _ hval
  obtain ⟨reqItems, b3, hval⟩ := except_bind_ok_inv _ _ _ hval
  obtain ⟨reqPaths, b4, hval⟩ := except_bind_ok_inv _ _ _ hval
  obtain ⟨vrfsRaw, b5, hval⟩ := except_bind_ok_inv _ _ _ hval
  rw [hdefs] at b5
  cases b5
  obtain ⟨defsL2, b6, hval⟩ := except_bind_ok_inv _ _ _ hval
  rw [hiter] at b6
  cases b6
  obtain ⟨idsL2, b7, hval⟩ := except_bind_ok_inv _ _ _ hval
  rw [hids] at b7
  cases b7
  obtain ⟨roles2, b8, hval⟩ := except_bind_ok_inv _ _ _ hval
  rw [hroles] at b8
  cases b8
  obtain ⟨roleVals, b9, hval⟩ := except_bind_ok_inv _ _ _ hval
  have b9b : Except.ok (ε := String) (rolesKvs.map (fun kv => kv.2)) = .ok roleVals := b9
  cases b9b
  obtain ⟨roleElems, b10, hval⟩ := except_bind_ok_inv _ _ _ hval
  obtain ⟨und2, b11, hval⟩ := except_bind_ok_inv _ _ _ hval
  rw [hund] at b11
  cases b11
  obtain ⟨undKeys, b12, hval⟩ := except_bind_ok_inv _ _ _ hval
  have b12b : Except.ok (ε := String) (undKvs.map (fun kv => kv.1)) = .ok undKeys := b12
  cases b12b
  obtain ⟨dm, b13, hval⟩ := except_bind_ok_inv _ _ _ hval
  obtain ⟨dmKvs, b14, hval⟩ := except_bind_ok_inv _ _ _ hval
  obtain ⟨e4, b15, hval⟩ := except_bind_ok_inv _ _ _ hval
  -- the duplicate id forces the uniqueness violation
  have hlt : (pySetOfList idsL).length < idsL.length := by
    rw [hdup]
    exact pySetOfList_length_lt_of_dup l1 l2 l3 a
  have hne : ¬ (idsL.length = (pySetOfList idsL).length) := by omega
  -- the hostname is among the collected devices and has no underlay key
  obtain ⟨kv, hkvmem, xs, hkv2, hxmem⟩ := hmem
  have hseqmem : Yaml.seq xs ∈ rolesKvs.map (fun kv => kv.2) :=
    List.mem_map.mpr ⟨kv, hkvmem, by rw [hkv2]⟩
  obtain ⟨l, hlmem, hlIter⟩ := mapM_mem_ok pyIterate _ _ b10 _ hseqmem
  have hli : Except.ok (ε := String) xs = .ok l := hlIter
  cases hli
  have hset : Yaml.str hname ∈ pySetOfList roleElems.flatten :=
    mem_pySetOfList _ _ (List.mem_flatten.mpr ⟨xs, hlmem, hxmem⟩)
  have hany : (undKvs.map (fun kv => kv.1)).any
      (fun k => ykeyMatches k (Yaml.str hname)) = false := by
    rw [List.any_eq_false]
    intro k hk
    obtain ⟨kv2, hkv2mem, hkv2eq⟩ := List.mem_map.mp hk
    rw [← hkv2eq, hnokey kv2 hkv2mem]
    exact Bool.false_ne_true
  have hmiss : Yaml.str hname ∈ (pySetOfList roleElems.flatten).filter
      (fun v => !((undKvs.map (fun kv => kv.1)).any (fun k => ykeyMatches k v))) := by
    refine List.mem_filter.mpr ⟨hset, ?_⟩
    rw [hany]
    rfl
  have hmissNE : ((pySetOfList roleElems.flatten).filter
      (fun v => !((undKvs.map (fun kv => kv.1)).any (fun k => ykeyMatches k v)))).isEmpty
      = false := by
    cases hm : (pySetOfList roleElems.flatten).filter
        (fun v => !((undKvs.map (fun kv => kv.1)).any (fun k => ykeyMatches k v))) with
    | nil => rw [hm] at hmiss; cases hmiss
    | cons y ys => rfl
  rw [if_neg hne, hmissNE] at hval
  simp only [Bool.false_eq_true, if_false] at hval
  have hvs : Except.ok (ε := String)
      ((reqPaths.filter (fun p => !(check_field_exists d p))).map Violation.requiredFieldMissing
        ++ [Violation.vrfIdsNotUnique]
        ++ [Violation.missingUnderlayLoopbacks ((pySetOfList roleElems.flatten).filter
              (fun v => !((undKvs.map (fun kv => kv.1)).any (fun k => ykeyMatches k v))))]
        ++ e4) = .ok vs := hval
  cases hvs
  refine ⟨?_, rfl, ?_⟩
  · simp [List.mem_append]
  · refine ⟨_, ?_, hmiss⟩
    simp [List.mem_append]

/-- Witness for C8 on the duplicate-id document: definitions with ids 5 and
5, a leaf lx with no underlay loopback; the validator returns both
violations side by side. -/
theorem c8_witness :
    validate_data_model dupDoc = .ok [Violation.vrfIdsNotUnique,
      Violation.missingUnderlayLoopbacks [.str "lx"]] ∧
    (Violation.vrfIdsNotUnique ∈ [Violation.vrfIdsNotUnique,
        Violation.missingUnderlayLoopbacks [.str "lx"]] ∧
      Violation.message .vrfIdsNotUnique = "VRF IDs must be unique" ∧
      (∃ ds, Violation.missingUnderlayLoopbacks ds ∈ [Violation.vrfIdsNotUnique,
        Violation.missingUnderlayLoopbacks [.str "lx"]] ∧ Yaml.str "lx" ∈ ds)) :=
  ⟨rfl,
   c8_validator_reports_both dupDoc
     [Violation.vrfIdsNotUnique, Violation.missingUnderlayLoopbacks [.str "lx"]]
     (.seq [Yaml.map [(.s "id", .int 5), (.s "name", .str "A")],
            Yaml.map [(.s "id", .int 5), (.s "name", .str "B")]])
     [Yaml.map [(.s "id", .int 5), (.s "name", .str "A")],
      Yaml.map [(.s "id", .int 5), (.s "name", .str "B")]]
     [.int 5, .int 5] [] [] [] (.int 5)
     [(.s "leaf", .seq [.str "lx"])] [] "lx"
     rfl rfl rfl rfl rfl rfl rfl
     ⟨(.s "leaf", .seq [.str "lx"]), List.mem_singleton.mpr rfl,
      [.str "lx"], rfl, List.mem_singleton.mpr rfl⟩
     (fun kv hkv => absurd hkv (List.not_mem_nil kv))⟩

/-- C1 counterexample: a document the Validator fully accepts (empty
violation list) on which the Mapper raises, with or without a target
hostname — the accepted document has no fabric section, the first field the
fixed-schema mapping dereferences. -/
theorem c1_counterexample :
    validate_data_model acceptedIncompleteDoc = .ok [] ∧
    convert_to_template_vars acceptedIncompleteDoc none = .error "KeyError: fabric" ∧
    convert_to_template_vars acceptedIncompleteDoc (some "l1") = .error "KeyError: fabric" :=
  ⟨rfl, rfl, rfl⟩

theorem yamlLookup_isSome_of_key_mem : ∀ (kvs : List (YKey × Yaml)) (k : YKey),
    (∃ kv, kv ∈ kvs ∧ kv.1 = k) → ∃ v, yamlLookup kvs k = some v := by
  intro kvs k
  induction kvs with
  | nil =>
      intro h
      obtain ⟨kv, hm, -⟩ := h
      cases hm
  | cons kv0 rest ih =>
      intro h
      obtain ⟨kv, hm, hk⟩ := h
      obtain ⟨a, b⟩ := kv0
      unfold yamlLookup
      by_cases hak : a = k
      · subst hak
        exact ⟨b, by simp⟩
      · rw [if_neg hak]
        apply ih
        rcases List.mem_cons.mp hm with hm | hm
        · exfalso
          apply hak
          rw [← hk, hm]
        · exact ⟨kv, hm, hk⟩

theorem vrfListStep_ok (xs : List Yaml) (b : List Yaml) (m : Yaml)
    (hm : vrfDefFieldsOK m = true) :
    ∃ out, vrfListStep (Yaml.seq xs) b m = .ok out := by
  simp only [vrfDefFieldsOK, Bool.and_eq_true] at hm
  obtain ⟨h1, h2⟩ := hm
  obtain ⟨_, idv, -, -, hid⟩ := hasKeyB_getItem m _ h1
  obtain ⟨_, nv, -, -, hname⟩ := hasKeyB_getItem m _ h2
  unfold vrfListStep
  rw [hid]
  have hpi : pyIn idv (Yaml.seq xs) = .ok (xs.any (fun y => Yaml.beq y idv)) := rfl
  simp only [except_bind_ok, hpi]
  cases hb2 : xs.any (fun y => Yaml.beq y idv) with
  | true =>
      rw [hname]
      exact ⟨_, rfl⟩
  | false => exact ⟨_, rfl⟩

theorem device_augment_ok (d : Yaml) (core : List (String × Yaml)) (hn : String)
    (hcore : convert_core d = .ok core) (hs : mapper_fields_present d) :
    ∃ vars, device_augment core hn = .ok vars := by
  obtain ⟨-, hlkDefs, hlkDvtn⟩ := convert_core_props d core hcore
  obtain ⟨-, -, -, -, -, -, -, -, -, -, -, -, -, -, -, -, -, -,
          h19, h20, -, -, -, -, -⟩ := hs
  obtain ⟨defsV, hdefsPG, hdefsP⟩ := optSat_cases _ _ h19
  obtain ⟨defsList, hdEq, hdAll⟩ := seqAll_cases _ _ hdefsP
  subst hdEq
  have hpDefs := pathGet_pyPath _ _ _ hdefsPG
  obtain ⟨dmV, hdmPG, hdmP⟩ := optSat_cases _ _ h20
  obtain ⟨dmKvs, hdmEq, hdmAll⟩ := mapValsAll_cases _ _ hdmP
  subst hdmEq
  have hpDm := pathGet_pyPath _ _ _ hdmPG
  have hcoreDvtn : List.lookup "DEFN_VRF_TO_NODE" core = some (.map dmKvs) :=
    (hlkDvtn _).mpr hpDm
  have hcoreDefs : List.lookup "DEFN_VRF" core = some (.seq defsList) :=
    (hlkDefs _).mpr hpDefs
  unfold device_augment device_augment_tail
  rw [lookup_append_assoc, hcoreDvtn]
  have hpi : pyIn (.str hn) (.map dmKvs) =
      .ok (dmKvs.any (fun kv => ykeyMatches kv.1 (.str hn))) := rfl
  simp only [except_bind_ok, hpi]
  cases hb : dmKvs.any (fun kv => ykeyMatches kv.1 (.str hn)) with
  | false =>
      simp only [Bool.false_eq_true, if_false]
      exact ⟨_, rfl⟩
  | true =>
      simp only [if_true]
      obtain ⟨kv, hkvmem, hkvmatch⟩ := List.any_eq_true.mp hb
      have hk1 : kv.1 = YKey.s hn := by
        have hy := (ykeyMatches_iff kv.1 (.str hn)).mp hkvmatch
        cases hkv1 : kv.1 with
        | s v =>
            rw [hkv1] at hy
            simp only [YKey.toYaml] at hy
            injection hy with hv
            rw [hv]
        | i v =>
            rw [hkv1] at hy
            simp only [YKey.toYaml] at hy
            cases hy
      obtain ⟨idsV, hlook⟩ := yamlLookup_isSome_of_key_mem dmKvs (.s hn) ⟨kv, hkvmem, hk1⟩
      have hgi : pyGetItem (.map dmKvs) (.s hn) = .ok idsV := by
        simp [pyGetItem, hlook]
      rw [hgi]
      simp only [except_bind_ok]
      rw [lookup_append_assoc, hcoreDefs]
      simp only [except_bind_ok]
      have hseq : isSeqB idsV = true := by
        have hmem2 := yamlLookup_mem dmKvs _ _ hlook
        exact List.all_eq_true.mp hdmAll _ hmem2
      obtain ⟨xs, hxsEq⟩ : ∃ xs, idsV = Yaml.seq xs := by
        cases idsV <;> simp only [isSeqB] at hseq <;> try cases hseq
        exact ⟨_, rfl⟩
      subst hxsEq
      have hItD : pyIterate (Yaml.seq defsList) = .ok defsList := rfl
      rw [hItD]
      simp only [except_bind_ok]
      obtain ⟨names, hnames⟩ := foldlM_ok_of_all (vrfListStep (Yaml.seq xs))
        vrfDefFieldsOK (fun b m hm => vrfListStep_ok xs b m hm) defsList [] hdAll
      rw [hnames]
      exact ⟨_, rfl⟩

/-- C1 amended: acceptance by the Validator alone does not prevent a
MissingField failure of the Mapper (see the counterexample); the Mapper
raises no MissingField exactly when the document itself presents every
field of the fixed schema the mapping dereferences — for every accepted
document that also presents all those fields, conversion succeeds with and
without a target hostname. -/
theorem c1_mapper_total_on_present_fields (d : Yaml)
    (hval : validate_data_model d = .ok [])
    (hs : mapper_fields_present d) :
    (∃ vars, convert_to_template_vars d none = .ok vars) ∧
    (∀ hn : String, ∃ vars, convert_to_template_vars d (some hn) = .ok vars) := by
  obtain ⟨core, hcore⟩ := convert_core_ok d hs
  constructor
  · refine ⟨core, ?_⟩
    unfold convert_to_template_vars
    rw [hcore]
    rfl
  · intro hn
    obtain ⟨vars, hvars⟩ := device_augment_ok d core hn hcore hs
    refine ⟨vars, ?_⟩
    unfold convert_to_template_vars
    rw [hcore]
    exact hvars

/-- Witness for C1 on the complete sample document: validated with no
violations, all schema fields present, and conversion succeeds both ways. -/
theorem c1_witness :
    validate_data_model sampleDoc = .ok [] ∧
    mapper_fields_present sampleDoc ∧
    ((∃ vars, convert_to_template_vars sampleDoc none = .ok vars) ∧
     (∀ hn : String, ∃ vars, convert_to_template_vars sampleDoc (some hn) = .ok vars)) :=
  ⟨rfl, by decide, c1_mapper_total_on_present_fields sampleDoc rfl (by decide)⟩
